import Mathlib

/-!
# Word-guessing game server: frame codec and session state machine

A shallow embedding of `transport/transport.go`, `server/main.go` and the
request parser of `client/main.go`.

* Bytes are natural numbers below 256; a connection is the list of bytes
  written to it and not yet read.
* Go pointers (`*Player`, `*Game`) are indices into two append-only object
  heaps; `nil` is `none`.
* Go maps are association lists with at most one entry per key.
* Every `SendMessage` call of the server is recorded in a log.
* The values of `generateId` and the results of `ReceiveMessage` are inputs
  of the step methods; `strings.EqualFold` is a parameter.
* A session goroutine reads the player state at the top of its loop, blocks
  in the receive of the step method it chose, and runs the rest of the
  method without interleaving once the receive returns.
-/

namespace Transport

/-- Length of the frame header, `HEADER_LENGTH`. -/
def HEADER_LENGTH : Nat := 6

/-- Width of the length field, `HEADER_LENGTH_BYTES`. -/
def HEADER_LENGTH_BYTES : Nat := 4

/-- Width of the type field, `TYPE_LENGTH_BYTES`. -/
def TYPE_LENGTH_BYTES : Nat := 2

/-- Message type codes are `uint16` values. -/
abbrev MessageType := Nat

def DISCONNECT : MessageType := 0
def GET_PLAYERS : MessageType := 1
def INIT_GAME : MessageType := 2
def INVALID : MessageType := 3
def MESSAGE : MessageType := 4
def GIVE_UP : MessageType := 5
def GAME_STARTED : MessageType := 6
def GAME_TERMINATED : MessageType := 7

/-- Conversion `uint32(n)` of a Go `int`: reduction modulo `2^32`. -/
def toUint32 (n : Nat) : Nat := n % 2 ^ 32

/-- Conversion `uint16(n)`: reduction modulo `2^16`. -/
def toUint16 (n : Nat) : Nat := n % 2 ^ 16

/-- Bytes stored by `binary.BigEndian.PutUint32`: `byte(v >> 24)`,
`byte(v >> 16)`, `byte(v >> 8)`, `byte(v)`. -/
def PutUint32 (v : Nat) : List Nat :=
  [v / 2 ^ 24 % 256, v / 2 ^ 16 % 256, v / 2 ^ 8 % 256, v % 256]

/-- Bytes stored by `binary.BigEndian.PutUint16`: `byte(v >> 8)`, `byte(v)`. -/
def PutUint16 (v : Nat) : List Nat :=
  [v / 2 ^ 8 % 256, v % 256]

/-- Value read by `binary.BigEndian.Uint32` from a four byte slice. -/
def Uint32 (b : List Nat) : Nat :=
  b.getD 3 0 + b.getD 2 0 * 2 ^ 8 + b.getD 1 0 * 2 ^ 16 + b.getD 0 0 * 2 ^ 24

/-- Value read by `binary.BigEndian.Uint16` from a two byte slice. -/
def Uint16 (b : List Nat) : Nat :=
  b.getD 1 0 + b.getD 0 0 * 2 ^ 8

/-- A decoded frame: `Message` with the payload kept as bytes (`Type_` is the
field `Type`). -/
structure Frame where
  Type_ : MessageType
  Data : List Nat
deriving DecidableEq, Repr

/-- Header built by `SendMessage`: the length field from `uint32(len(data))`
and the type field from `uint16(messageType)`. -/
def header (data : List Nat) (messageType : MessageType) : List Nat :=
  PutUint32 (toUint32 data.length) ++ PutUint16 (toUint16 messageType)

/-- Bytes written by `SendMessage(conn, message, messageType)` when both
writes succeed: the header first, the payload after it. -/
def SendMessage (message : List Nat) (messageType : MessageType) : List Nat :=
  header message messageType ++ message

/-- Read errors of `io.ReadFull`. -/
inductive ReadError where
  | EOF
  | ErrUnexpectedEOF
deriving DecidableEq, Repr

/-- Model of `io.ReadFull(conn, buf)` with `len(buf) = n` on a stream that is
closed after its last byte: the bytes read and the rest of the stream. -/
def ReadFull (conn : List Nat) (n : Nat) : Except ReadError (List Nat × List Nat) :=
  if n ≤ conn.length then .ok (conn.take n, conn.drop n)
  else if conn.length = 0 then .error .EOF
  else .error .ErrUnexpectedEOF

/-- Model of `ReceiveMessage(conn)`: the decoded frame and the unread rest of
the stream, or the read error. -/
def ReceiveMessage (conn : List Nat) : Except ReadError (Frame × List Nat) :=
  match ReadFull conn HEADER_LENGTH with
  | .error e => .error e
  | .ok (hdr, rest) =>
    let dataLen := Uint32 (hdr.take HEADER_LENGTH_BYTES)
    let messageType := Uint16 ((hdr.drop HEADER_LENGTH_BYTES).take TYPE_LENGTH_BYTES)
    match ReadFull rest dataLen with
    | .error e => .error e
    | .ok (data, rest') => .ok ({ Type_ := messageType, Data := data }, rest')

/-- Value of a byte sequence read as a big-endian unsigned integer, as the
wire format is worded: the first byte is the most significant one. -/
def bigEndianValue (b : List Nat) : Nat :=
  b.foldl (fun acc x => acc * 256 + x) 0

end Transport

namespace GameServer

open Transport

/-- The states of a player session, `PlayerState`. -/
inductive PlayerState where
  | Connected
  | Authenticated
  | Playing
  | Guessing
  | Error
deriving DecidableEq, Repr

/-- A received `transport.Message`; the payload is UTF-8 text (`Type_` is
the field `Type`). -/
structure Message where
  Type_ : MessageType
  Data : String
deriving DecidableEq, Repr

/-- The struct `Player`. `conn` names the connection; `currentGame` is a
pointer into the heap of `Game` objects. -/
structure Player where
  ID : String
  conn : Nat
  state : PlayerState
  currentGame : Option Nat
deriving DecidableEq, Repr

/-- The struct `Game`. `Player` and `Opponent` are pointers into the heap of
`Player` objects. -/
structure Game where
  ID : String
  Player : Nat
  Opponent : Nat
  SecretWord : String
deriving DecidableEq, Repr

/-- One call `TransportHandler.SendMessage(conn, Data, Type_)`. -/
structure Sent where
  conn : Nat
  Data : String
  Type_ : MessageType
deriving DecidableEq, Repr

/-- The struct `Server` together with the memory it points into.
`Players` and `Games` are the two maps (identifier to pointer),
`playerHeap` and `gameHeap` hold the objects the pointers refer to,
`sent` lists the `SendMessage` calls made so far (oldest first) and
`closed` the connections on which `Close` was called. The address fields
and the two locks carry no behaviour of a sequential step and are left out. -/
structure Server where
  Players : List (String × Nat)
  Games : List (String × Nat)
  Password : String
  playerHeap : List Player
  gameHeap : List Game
  sent : List Sent
  closed : List Nat
deriving DecidableEq, Repr

/-- Map read `m[k]`. -/
def mapGet (m : List (String × Nat)) (k : String) : Option Nat :=
  (m.find? (fun e => decide (e.1 = k))).map (fun e => e.2)

/-- Builtin `delete(m, k)`. -/
def mapDelete (m : List (String × Nat)) (k : String) : List (String × Nat) :=
  m.filter (fun e => decide (e.1 ≠ k))

/-- Map write `m[k] = v`: an earlier entry for `k` is replaced. -/
def mapSet (m : List (String × Nat)) (k : String) (v : Nat) : List (String × Nat) :=
  mapDelete m k ++ [(k, v)]

/-- A write through the pointer `p` to a `Player`. The pointers the program
holds always refer to allocated objects; a write through any other index
leaves the heap as it is. -/
def modifyPlayer (s : Server) (p : Nat) (f : Player → Player) : Server :=
  match s.playerHeap[p]? with
  | some P => { s with playerHeap := s.playerHeap.set p (f P) }
  | none => s

/-- The call `s.TransportHandler.SendMessage(conn, message, messageType)`;
the server ignores the error it returns. -/
def SendMessage (s : Server) (conn : Nat) (message : String) (messageType : MessageType) :
    Server :=
  { s with sent := s.sent ++ [{ conn := conn, Data := message, Type_ := messageType }] }

/-- The call `conn.Close()`. -/
def Close (s : Server) (conn : Nat) : Server :=
  { s with closed := s.closed ++ [conn] }

/-- The statement `delete(s.Players, id)` (under `PlayersLock`). -/
def deletePlayers (s : Server) (id : String) : Server :=
  { s with Players := mapDelete s.Players id }

/-- The statement `s.Players[id] = player` (under `PlayersLock`). -/
def storePlayers (s : Server) (id : String) (player : Nat) : Server :=
  { s with Players := mapSet s.Players id player }

/-- The statement `delete(s.Games, id)` (under `GamesLock`). -/
def deleteGames (s : Server) (id : String) : Server :=
  { s with Games := mapDelete s.Games id }

/-- The statement `s.Games[id] = game` (under `GamesLock`). -/
def storeGames (s : Server) (id : String) (game : Nat) : Server :=
  { s with Games := mapSet s.Games id game }

/-- Allocation of a `Game` object, `&Game{...}`: it is placed at the end of
the heap, so its address is the former length of the heap. -/
def allocGame (s : Server) (G : Game) : Server :=
  { s with gameHeap := s.gameHeap ++ [G] }

/-- The function `newServer`: both maps empty. -/
def newServer (password : String) : Server :=
  { Players := [], Games := [], Password := password,
    playerHeap := [], gameHeap := [], sent := [], closed := [] }

/-- The function `newGame`; `id` is the value `generateId()` returned. -/
def newGame (player opponent : Nat) (secretWord : String) (id : String) : Game :=
  { ID := id, Player := player, Opponent := opponent, SecretWord := secretWord }

/-- The method `disconnectPlayer`. -/
def disconnectPlayer (s : Server) (player : Nat) : Option Server := do
  let P ← s.playerHeap[player]?
  let s := SendMessage s P.conn "" DISCONNECT
  pure (deletePlayers s P.ID)

/-- The method `initializeGame`; `id` is the value `generateId()` returned
inside `newGame`. The new `Game` object is placed at the end of the heap. -/
def initializeGame (s : Server) (player opponent : Nat) (secretWord : String) (id : String) :
    Option Server := do
  let game := s.gameHeap.length
  let s := allocGame s (newGame player opponent secretWord id)
  let s := storeGames s id game
  let s := modifyPlayer s player (fun P => { P with state := PlayerState.Playing })
  let s := modifyPlayer s opponent (fun P => { P with state := PlayerState.Guessing })
  let s := modifyPlayer s player (fun P => { P with currentGame := some game })
  let s := modifyPlayer s opponent (fun P => { P with currentGame := some game })
  let P ← s.playerHeap[player]?
  let O ← s.playerHeap[opponent]?
  let s := SendMessage s O.conn
    ("Player " ++ P.ID ++ " has started game against you. Now guess his word...") GAME_STARTED
  pure (SendMessage s P.conn
    ("You started game against player " ++ O.ID ++
      " You can send him some hints if he struggles with your word") GAME_STARTED)

/-- The loop condition of `getFreePlayers`:
`player.currentGame == nil && currentPlayer.ID != player.ID`. -/
def isFree (s : Server) (currentPlayer : Nat) (player : Nat) : Bool :=
  match s.playerHeap[player]?, s.playerHeap[currentPlayer]? with
  | some Q, some C => Q.currentGame.isNone && decide (C.ID ≠ Q.ID)
  | _, _ => false

/-- The method `getFreePlayers`: the entries of `s.Players` that pass the
loop condition. -/
def getFreePlayers (s : Server) (currentPlayer : Nat) : List (String × Nat) :=
  s.Players.filter (fun e => isFree s currentPlayer e.2)

/-- The text built by `handleGetPlayersRequest`: one line per free player.
Go iterates a map in an unspecified order; the order of the list is used. -/
def freePlayersText (s : Server) (free : List (String × Nat)) : String :=
  free.foldl
    (fun acc e =>
      match s.playerHeap[e.2]? with
      | some Q => acc ++ (Q.ID ++ "\n")
      | none => acc)
    "You can play against these users:\n"

/-- The method `handleGetPlayersRequest`. -/
def handleGetPlayersRequest (s : Server) (player : Nat) : Option Server := do
  let P ← s.playerHeap[player]?
  pure (SendMessage s P.conn (freePlayersText s (getFreePlayers s player)) MESSAGE)

/-- The method `handleInitGame`. -/
def handleInitGame (s : Server) (player : Nat) (opponentId secretWord : String) (id : String) :
    Option Server := do
  let P ← s.playerHeap[player]?
  let freePlayers := getFreePlayers s player
  if opponentId = P.ID then
    pure (SendMessage s P.conn "You cannot play against yourself" INVALID)
  else
    match mapGet freePlayers opponentId with
    | none =>
      pure (SendMessage s P.conn
        ("Opponent with Id " ++ opponentId ++ " is is not free or does not exist\n") INVALID)
    | some opponent => initializeGame s player opponent secretWord id

/-- The method `restoreInitState`. -/
def restoreInitState (s : Server) (p : Nat) : Server :=
  modifyPlayer s p
    (fun P => { P with state := PlayerState.Authenticated, currentGame := none })

/-- The method `terminateGame`. -/
def terminateGame (s : Server) (game : Option Nat) : Option Server :=
  match game with
  | none => some s
  | some g => do
    let G ← s.gameHeap[g]?
    let s := restoreInitState s G.Player
    let s := restoreInitState s G.Opponent
    pure (deleteGames s G.ID)

/-- The predicate `unicode.IsSpace`. -/
def isSpace (c : Char) : Bool :=
  let n := c.toNat
  (9 ≤ n && n ≤ 13) || n == 32 || n == 0x85 || n == 0xA0 || n == 0x1680 ||
    (0x2000 ≤ n && n ≤ 0x200A) || n == 0x2028 || n == 0x2029 || n == 0x202F ||
    n == 0x205F || n == 0x3000

/-- Worker of `Fields`: `cur` holds the characters of the field being read. -/
def fieldsAux : List Char → List Char → List String
  | [], cur => if cur = [] then [] else [String.mk cur]
  | c :: cs, cur =>
    if isSpace c then
      if cur = [] then fieldsAux cs [] else String.mk cur :: fieldsAux cs []
    else fieldsAux cs (cur ++ [c])

/-- The function `strings.Fields`: the maximal runs of characters that are
not white space. -/
def Fields (s : String) : List String :=
  fieldsAux s.data []

/-- The method `authenticatePlayer`. `recv` is the result of the call of
`ReceiveMessage` (`none` when it returned an error) and `id` the value
`generateId()` returns. -/
def authenticatePlayer (s : Server) (player : Nat) (recv : Option Message) (id : String) :
    Option Server := do
  let P ← s.playerHeap[player]?
  let s := SendMessage s P.conn "Enter secret Password!" MESSAGE
  match recv with
  | none => disconnectPlayer s player
  | some msg =>
    let password := msg.Data
    if password = s.Password then
      let text := "Correct password! Your ID is: " ++ id ++ "\n"
      let s := SendMessage s P.conn text MESSAGE
      let s := modifyPlayer s player (fun P => { P with state := PlayerState.Authenticated })
      let s := modifyPlayer s player (fun P => { P with ID := id })
      pure (storePlayers s id player)
    else
      let s := SendMessage s P.conn
        "Password is incorrect... you will be disconnected." DISCONNECT
      pure (Close s P.conn)

/-- The method `pickOponentForPlayer`. `recv` is the result of
`ReceiveMessage` and `id` the value `generateId()` returns if a game is
created. The line printed to standard output is left out. -/
def pickOponentForPlayer (s : Server) (player : Nat) (recv : Option Message) (id : String) :
    Option Server :=
  match recv with
  | none => disconnectPlayer s player
  | some msg =>
    if msg.Type_ = DISCONNECT then disconnectPlayer s player
    else if msg.Type_ = GET_PLAYERS then handleGetPlayersRequest s player
    else if msg.Type_ = INIT_GAME then
      match Fields msg.Data with
      | [opponentId, secretWord] => handleInitGame s player opponentId secretWord id
      | _ => do
        let P ← s.playerHeap[player]?
        pure (SendMessage s P.conn "Invalid request" INVALID)
    else if msg.Type_ = GAME_STARTED then some s
    else do
      let P ← s.playerHeap[player]?
      pure (SendMessage s P.conn "Invalid request" INVALID)

/-- The method `play`. `none` is returned where the Go code dereferences a
nil pointer. -/
def play (s : Server) (player : Nat) (recv : Option Message) : Option Server := do
  let P ← s.playerHeap[player]?
  let currentGamge := P.currentGame
  match recv with
  | none =>
    let s ← disconnectPlayer s player
    let P' ← s.playerHeap[player]?
    let s ← terminateGame s P'.currentGame
    let g ← currentGamge
    let G ← s.gameHeap[g]?
    let O ← s.playerHeap[G.Opponent]?
    let infoMsg :=
      "Game was terminated. Player probably disconnected from the server. Secret word was '" ++
        G.SecretWord ++ "' Pick another game\n"
    pure (SendMessage s O.conn infoMsg GAME_TERMINATED)
  | some msg =>
    if msg.Type_ = GAME_TERMINATED ∨ msg.Type_ = GIVE_UP then pure s
    else do
      let g ← currentGamge
      let G ← s.gameHeap[g]?
      let O ← s.playerHeap[G.Opponent]?
      pure (SendMessage s O.conn msg.Data MESSAGE)

/-- The method `guess`. `EqualFold` stands for the library function
`strings.EqualFold`. `none` is returned where the Go code dereferences a nil
pointer. -/
def guess (EqualFold : String → String → Bool) (s : Server) (player : Nat)
    (recv : Option Message) : Option Server := do
  let P ← s.playerHeap[player]?
  let currentGamge := P.currentGame
  match recv with
  | none =>
    let s ← disconnectPlayer s player
    let P' ← s.playerHeap[player]?
    let s ← terminateGame s P'.currentGame
    let g ← currentGamge
    let G ← s.gameHeap[g]?
    let S ← s.playerHeap[G.Player]?
    pure (SendMessage s S.conn
      "Game was terminated. Opponent probably disconnected from the server. Pick another game\n"
      GAME_TERMINATED)
  | some msg =>
    if msg.Type_ = GAME_TERMINATED then pure s
    else if msg.Type_ = GIVE_UP then do
      let g ← currentGamge
      let G ← s.gameHeap[g]?
      let S ← s.playerHeap[G.Player]?
      let s := SendMessage s S.conn "Oponent gave up. You can pick another game now" GIVE_UP
      let O ← s.playerHeap[G.Opponent]?
      let s := SendMessage s O.conn
        ("You gave up. The secret word was: " ++ G.SecretWord ++
          ". You can start another game now") MESSAGE
      terminateGame s currentGamge
    else do
      let currentGuess := msg.Data
      let g ← currentGamge
      let G ← s.gameHeap[g]?
      if EqualFold G.SecretWord currentGuess then do
        let O ← s.playerHeap[G.Opponent]?
        let s := SendMessage s O.conn
          "This is correct! You have won! Pick another game if you wish\n" MESSAGE
        let S ← s.playerHeap[G.Player]?
        let s := SendMessage s S.conn
          "Opponent guessed your word correctly! Pick another game if you wish\n"
          GAME_TERMINATED
        terminateGame s currentGamge
      else do
        let O ← s.playerHeap[G.Opponent]?
        let s := SendMessage s O.conn
          "This is not the secret word. Take another guess!\n" MESSAGE
        let S ← s.playerHeap[G.Player]?
        pure (SendMessage s S.conn
          ("Opponent guessed incorect word: " ++ currentGuess ++ "\n") MESSAGE)

/-- Where the goroutine `handlePlayer` of a session stands: at the top of
its loop, blocked in the receive of one of the four step methods (chosen from
the player state read at the top of the loop), or returned. -/
inductive Pc where
  | loop
  | authenticatePlayer
  | pickOponentForPlayer
  | play
  | guess
  | returned
deriving DecidableEq, Repr

/-- The server and its session goroutines: `pcs[i]` is the position of the
goroutine that owns the player object at address `i`. -/
structure System where
  server : Server
  pcs : List Pc
deriving DecidableEq, Repr

/-- The values `generateId` can return: eight lower-case hexadecimal digits. -/
def isId (id : String) : Bool :=
  id.data.length == 8 && id.data.all (fun c => c.isDigit || (decide ('a' ≤ c) && decide (c ≤ 'f')))

/-- What can happen next in the system. -/
inductive Event where
  | accept (conn : Nat)
  | dispatch (player : Nat)
  | receive (player : Nat) (recv : Option Message) (id : String)
deriving DecidableEq, Repr

/-- A listener of `StartListen` accepts a connection: a fresh `Player` in
state `Connected` with no identifier and no game, and its goroutine. -/
def accept (sys : System) (conn : Nat) : System :=
  { server :=
      { sys.server with
        playerHeap := sys.server.playerHeap ++
          [{ ID := "", conn := conn, state := PlayerState.Connected, currentGame := none }] },
    pcs := sys.pcs ++ [Pc.loop] }

/-- The `switch player.state` at the top of the loop of `handlePlayer`: the
goroutine enters the step method of the state it reads and blocks in its
receive; in state `Error` it closes the connection and returns. -/
def dispatch (sys : System) (player : Nat) : Option System := do
  let pc ← sys.pcs[player]?
  let P ← sys.server.playerHeap[player]?
  if pc = Pc.loop then
    match P.state with
    | PlayerState.Connected =>
      pure { sys with pcs := sys.pcs.set player Pc.authenticatePlayer }
    | PlayerState.Authenticated =>
      pure { sys with pcs := sys.pcs.set player Pc.pickOponentForPlayer }
    | PlayerState.Playing => pure { sys with pcs := sys.pcs.set player Pc.play }
    | PlayerState.Guessing => pure { sys with pcs := sys.pcs.set player Pc.guess }
    | PlayerState.Error =>
      pure { server := Close sys.server P.conn, pcs := sys.pcs.set player Pc.returned }
  else none

/-- The rest of the step method a goroutine is blocked in, run on the result
`recv` of its receive. A goroutine at the top of its loop or returned is not
blocked in a receive. -/
def stepMethod (EqualFold : String → String → Bool) (pc : Pc) (s : Server) (player : Nat)
    (recv : Option Message) (id : String) : Option Server :=
  match pc with
  | Pc.authenticatePlayer => authenticatePlayer s player recv id
  | Pc.pickOponentForPlayer => pickOponentForPlayer s player recv id
  | Pc.play => play s player recv
  | Pc.guess => guess EqualFold s player recv
  | Pc.loop => none
  | Pc.returned => none

/-- The receive of a blocked goroutine returns and the step method runs to
its end (the prompt `authenticatePlayer` sends before its receive is logged
with the rest of that method); the goroutine is back at the top of its loop.
A message cannot arrive on a connection the server has closed, and `id` is a
value `generateId` can return. `none`: the event cannot happen, or the method
dereferences a nil pointer. -/
def receive (EqualFold : String → String → Bool) (sys : System) (player : Nat)
    (recv : Option Message) (id : String) : Option System := do
  let pc ← sys.pcs[player]?
  let P ← sys.server.playerHeap[player]?
  if (decide (P.conn ∈ sys.server.closed) && recv.isSome) || !isId id then none
  else
    let server ← stepMethod EqualFold pc sys.server player recv id
    pure { server := server, pcs := sys.pcs.set player Pc.loop }

/-- One step of the system. -/
def step (EqualFold : String → String → Bool) (sys : System) : Event → Option System
  | Event.accept conn => some (accept sys conn)
  | Event.dispatch player => dispatch sys player
  | Event.receive player recv id => receive EqualFold sys player recv id

/-- Run a list of events, the first one first. -/
def run (EqualFold : String → String → Bool) (sys : System) : List Event → Option System
  | [] => some sys
  | e :: es => (step EqualFold sys e).bind (fun sys' => run EqualFold sys' es)

/-- The system right after `newServer`: no session yet. -/
def newSystem (password : String) : System :=
  { server := newServer password, pcs := [] }

/-- The states the system can reach from the empty server. -/
inductive Reachable (EqualFold : String → String → Bool) (password : String) : System → Prop where
  | init : Reachable EqualFold password (newSystem password)
  | step (sys sys' : System) (e : Event) :
      Reachable EqualFold password sys → step EqualFold sys e = some sys' →
      Reachable EqualFold password sys'

/-- Lower-case form of an ASCII letter. -/
def asciiLower (c : Char) : Char :=
  if 'A' ≤ c ∧ c ≤ 'Z' then Char.ofNat (c.toNat + 32) else c

/-- A comparison that agrees with `strings.EqualFold` on ASCII text, used to
run examples. -/
def asciiEqualFold (s t : String) : Bool :=
  s.data.map asciiLower == t.data.map asciiLower

/-- Example state: two authenticated players in the registry, no game. -/
def exampleLobby : Server :=
  { Players := [("0000000a", 0), ("0000000b", 1)], Games := [], Password := "secret",
    playerHeap :=
      [{ ID := "0000000a", conn := 10, state := PlayerState.Authenticated, currentGame := none },
       { ID := "0000000b", conn := 11, state := PlayerState.Authenticated, currentGame := none }],
    gameHeap := [], sent := [], closed := [] }

/-- Example state: player 0 is the setter and player 1 the guesser of a game
with secret word `apple`. -/
def exampleGame : Server :=
  { Players := [("0000000a", 0), ("0000000b", 1)], Games := [("0000000c", 0)],
    Password := "secret",
    playerHeap :=
      [{ ID := "0000000a", conn := 10, state := PlayerState.Playing, currentGame := some 0 },
       { ID := "0000000b", conn := 11, state := PlayerState.Guessing, currentGame := some 0 }],
    gameHeap := [{ ID := "0000000c", Player := 0, Opponent := 1, SecretWord := "apple" }],
    sent := [], closed := [] }

/-- What `initializeGame` does to a player object: the opponent becomes the
guesser of the new game, the initiator its setter. -/
def startedPlayer (player opponent game q : Nat) (P : Player) : Player :=
  if q = opponent then { P with state := PlayerState.Guessing, currentGame := some game }
  else if q = player then { P with state := PlayerState.Playing, currentGame := some game }
  else P

/-- What `terminateGame` does to a player object: the two players of the
game are put back by `restoreInitState`. -/
def restoredPlayer (G : Game) (q : Nat) (P : Player) : Player :=
  if q = G.Player ∨ q = G.Opponent then
    { P with state := PlayerState.Authenticated, currentGame := none }
  else P

/-- The state that differs from `s` only in the secret word of the game
object at address `g`. -/
def withSecretWord (s : Server) (g : Nat) (w : String) : Server :=
  match s.gameHeap[g]? with
  | some G => { s with gameHeap := s.gameHeap.set g { G with SecretWord := w } }
  | none => s

/-- A run from the empty server: two clients authenticate; the first sends
a disconnect request, stays connected and starts a game against the second;
the second is dispatched to its guess step. -/
def deregisteredSetterTrace : List Event :=
  [Event.accept 10, Event.accept 11, Event.dispatch 0, Event.dispatch 1,
   Event.receive 0 (some { Type_ := MESSAGE, Data := "secret" }) "0000000a",
   Event.receive 1 (some { Type_ := MESSAGE, Data := "secret" }) "0000000b",
   Event.dispatch 0,
   Event.receive 0 (some { Type_ := DISCONNECT, Data := "" }) "00000000",
   Event.dispatch 0,
   Event.receive 0 (some { Type_ := INIT_GAME, Data := "0000000b apple" }) "0000000c",
   Event.dispatch 0, Event.dispatch 1]

/-- A run from the empty server in which `generateId` returns `0000000a` for
two players: the third client to authenticate gets the identifier of the
first, so its registration replaces the first player's registry entry; the
first player then starts a game against the second, who is dispatched to its
guess step. -/
def setterIdCollisionTrace : List Event :=
  [Event.accept 10, Event.accept 11, Event.accept 12,
   Event.dispatch 0, Event.dispatch 1, Event.dispatch 2,
   Event.receive 0 (some { Type_ := MESSAGE, Data := "secret" }) "0000000a",
   Event.receive 1 (some { Type_ := MESSAGE, Data := "secret" }) "0000000b",
   Event.receive 2 (some { Type_ := MESSAGE, Data := "secret" }) "0000000a",
   Event.dispatch 0,
   Event.receive 0 (some { Type_ := INIT_GAME, Data := "0000000b apple" }) "0000000c",
   Event.dispatch 0, Event.dispatch 1]

/-- A run from the empty server in which `generateId` returns `0000000a` for
two players: the second client to authenticate gets the identifier of the
first; the second player, which is the one registered under `0000000a`,
starts a game against the third, who is dispatched to its guess step. The
first player stays connected and authenticated. -/
def requesterIdCollisionTrace : List Event :=
  [Event.accept 10, Event.accept 11, Event.accept 12,
   Event.dispatch 0, Event.dispatch 1, Event.dispatch 2,
   Event.receive 0 (some { Type_ := MESSAGE, Data := "secret" }) "0000000a",
   Event.receive 1 (some { Type_ := MESSAGE, Data := "secret" }) "0000000a",
   Event.receive 2 (some { Type_ := MESSAGE, Data := "secret" }) "0000000b",
   Event.dispatch 1,
   Event.receive 1 (some { Type_ := INIT_GAME, Data := "0000000b apple" }) "0000000c",
   Event.dispatch 1, Event.dispatch 2]

/-- The state invariant of one player: `currentGame != nil` exactly when the
state is `Playing` or `Guessing`. -/
def PlayerOk (P : Player) : Prop :=
  P.currentGame ≠ none ↔ (P.state = PlayerState.Playing ∨ P.state = PlayerState.Guessing)

/-- Invariant of the server used to prove the state invariant. `A` is the set
of players whose goroutine is blocked in `authenticatePlayer`.
* every player object satisfies `PlayerOk`;
* a player in `A` has no game and is not in the player registry;
* every pointer in the player registry refers to a player object whose state
  is not `Connected`. -/
def ServerInv (A : Nat → Prop) (s : Server) : Prop :=
  (∀ (i : Nat) (P : Player), s.playerHeap[i]? = some P → PlayerOk P)
    ∧ (∀ (i : Nat) (P : Player), s.playerHeap[i]? = some P → A i →
        P.currentGame = none ∧ ∀ e ∈ s.Players, e.2 ≠ i)
    ∧ (∀ e ∈ s.Players,
        ∃ P : Player, s.playerHeap[e.2]? = some P ∧ P.state ≠ PlayerState.Connected)

/-- The invariant of the system: `ServerInv` for the players whose goroutine
is blocked in `authenticatePlayer`. -/
def SystemInv (sys : System) : Prop :=
  ServerInv (fun i => sys.pcs[i]? = some Pc.authenticatePlayer) sys.server

/-- A run from the empty server in which `generateId` returns the same value
for two games: four clients authenticate; the first starts a game against
the second and the third a game against the fourth, both games getting the
identifier `000000aa`; then the fourth gives up. -/
def gameIdCollisionTrace : List Event :=
  [Event.accept 10, Event.accept 11, Event.accept 12, Event.accept 13,
   Event.dispatch 0, Event.dispatch 1, Event.dispatch 2, Event.dispatch 3,
   Event.receive 0 (some { Type_ := MESSAGE, Data := "secret" }) "0000000a",
   Event.receive 1 (some { Type_ := MESSAGE, Data := "secret" }) "0000000b",
   Event.receive 2 (some { Type_ := MESSAGE, Data := "secret" }) "0000000c",
   Event.receive 3 (some { Type_ := MESSAGE, Data := "secret" }) "0000000d",
   Event.dispatch 0, Event.dispatch 2,
   Event.receive 0 (some { Type_ := INIT_GAME, Data := "0000000b apple" }) "000000aa",
   Event.receive 2 (some { Type_ := INIT_GAME, Data := "0000000d pear" }) "000000aa",
   Event.dispatch 1, Event.dispatch 3,
   Event.receive 3 (some { Type_ := GIVE_UP, Data := "" }) "00000000"]

/-- A run from the empty server: one client connects and its goroutine enters
`authenticatePlayer`. -/
def connectedTrace : List Event :=
  [Event.accept 10, Event.dispatch 0]

/-- How a step method can change the state of the player objects: every
object is kept, and its state is either left as it was or set to
`Authenticated`, `Playing` or `Guessing`. -/
def StateStep (s s' : Server) : Prop :=
  ∀ (q : Nat) (P' : Player), s'.playerHeap[q]? = some P' →
    ∃ P : Player, s.playerHeap[q]? = some P ∧
      (P'.state = P.state ∨ P'.state = PlayerState.Authenticated
        ∨ P'.state = PlayerState.Playing ∨ P'.state = PlayerState.Guessing)

/-- No player object is in state `Error` and no session goroutine has
returned from `handlePlayer`. -/
def NeverError (sys : System) : Prop :=
  (∀ P ∈ sys.server.playerHeap, P.state ≠ PlayerState.Error) ∧ Pc.returned ∉ sys.pcs

/-- A run from the empty server: a client connects and sends a wrong
password. -/
def wrongPasswordTrace : List Event :=
  [Event.accept 10, Event.dispatch 0,
   Event.receive 0 (some { Type_ := MESSAGE, Data := "wrong" }) "0000000a"]

/-- What the session does after `wrongPasswordTrace`: it enters
`authenticatePlayer` again, its receive fails on the closed connection, and
it enters `authenticatePlayer` once more. -/
def afterWrongPasswordTrace : List Event :=
  [Event.dispatch 0, Event.receive 0 none "00000000", Event.dispatch 0]

/-- A run from the empty server: the receive of a client fails in state
`Connected`; the session goes on, the client authenticates, and its receive
fails again in state `Authenticated`; the session goes on once more. -/
def receiveFailureTrace : List Event :=
  [Event.accept 10, Event.dispatch 0, Event.receive 0 none "00000000",
   Event.dispatch 0,
   Event.receive 0 (some { Type_ := MESSAGE, Data := "secret" }) "0000000a",
   Event.dispatch 0, Event.receive 0 none "00000000",
   Event.dispatch 0]

/-- Concatenation of a list of lines, the first line first. -/
def concatLines : List String → String
  | [] => ""
  | x :: xs => x ++ concatLines xs

/-- A run from the empty server with distinct identifiers throughout: four
clients authenticate and all four goroutines block in
`pickOponentForPlayer`. Player 0 starts a game against player 1; player 1,
whose goroutine is still in `pickOponentForPlayer`, starts a game against
player 2; player 2, in the same position, starts a game against player 3;
then the receive of player 0 fails in `play`, which ends the first game and
puts player 1 back. -/
def staleDispatchTrace : List Event :=
  [Event.accept 10, Event.accept 11, Event.accept 12, Event.accept 13,
   Event.dispatch 0, Event.dispatch 1, Event.dispatch 2, Event.dispatch 3,
   Event.receive 0 (some { Type_ := MESSAGE, Data := "secret" }) "0000000a",
   Event.receive 1 (some { Type_ := MESSAGE, Data := "secret" }) "0000000b",
   Event.receive 2 (some { Type_ := MESSAGE, Data := "secret" }) "0000000c",
   Event.receive 3 (some { Type_ := MESSAGE, Data := "secret" }) "0000000d",
   Event.dispatch 0, Event.dispatch 1, Event.dispatch 2, Event.dispatch 3,
   Event.receive 0 (some { Type_ := INIT_GAME, Data := "0000000b apple" }) "000000e0",
   Event.receive 1 (some { Type_ := INIT_GAME, Data := "0000000c pear" }) "000000e1",
   Event.receive 2 (some { Type_ := INIT_GAME, Data := "0000000d plum" }) "000000e2",
   Event.dispatch 0,
   Event.receive 0 none "00000000"]

/-- A run from the empty server: two clients connect and the first
authenticates and gets the identifier `0000000a`. -/
def firstRegisteredTrace : List Event :=
  [Event.accept 10, Event.accept 11, Event.dispatch 0, Event.dispatch 1,
   Event.receive 0 (some { Type_ := MESSAGE, Data := "secret" }) "0000000a"]

end GameServer

namespace Transport

/-- The request words of `transport.go`. -/
def REQ_DISCONNECT : String := "exit"

def REQ_GET_PLAYERS : String := "list_players"

def REQ_INIT_GAME : String := "start_game"

def REQ_GIVE_UP : String := "give_up"

end Transport

namespace Client

open Transport

/-- The function `strings.TrimSuffix`: `s` without the trailing `suffix` when
`len(s) >= len(suffix)` and the last `len(suffix)` bytes of `s` are `suffix`,
else `s`. -/
def TrimSuffix (s suffix : String) : String :=
  if suffix.data.length ≤ s.data.length ∧
      s.data.drop (s.data.length - suffix.data.length) = suffix.data then
    String.mk (s.data.take (s.data.length - suffix.data.length))
  else s

/-- The method `validateCommand`. -/
def validateCommand (parts : List String) (expectedParts : Nat) : Bool :=
  parts.length == expectedParts

/-- The three values `parseClientRequest` returns; `err` tells whether the
error is non-nil. -/
structure Request where
  payload : String
  messageType : MessageType
  err : Bool
deriving DecidableEq, Repr

/-- The method `parseClientRequest`. `input` and `err` are the results of
`reader.ReadString` (the text read, with the newline that ended it when
there was no error). `none`: the index expression `requestParts[0]` is out
of range and the goroutine panics. -/
def parseClientRequest (input : String) (err : Bool) : Option Request :=
  if err then some { payload := "", messageType := INVALID, err := true }
  else
    let input := TrimSuffix input "\n"
    if input = "" then some { payload := "", messageType := INVALID, err := false }
    else
      let requestParts := GameServer.Fields input
      match requestParts[0]? with
      | none => none
      | some first =>
        if first = REQ_DISCONNECT then
          some { payload := "", messageType := DISCONNECT, err := false }
        else if first = REQ_GET_PLAYERS then
          some { payload := "", messageType := GET_PLAYERS, err := false }
        else if first = REQ_INIT_GAME then
          if validateCommand requestParts 3 then
            some { payload := requestParts.getD 1 "" ++ " " ++ requestParts.getD 2 "",
                   messageType := INIT_GAME, err := false }
          else some { payload := "", messageType := INVALID, err := false }
        else if first = REQ_GIVE_UP then
          some { payload := "", messageType := GIVE_UP, err := false }
        else some { payload := input, messageType := MESSAGE, err := false }

end Client

namespace Transport

theorem Uint32_PutUint32 (v : Nat) (h : v < 2 ^ 32) : Uint32 (PutUint32 v) = v := by
  simp only [Uint32, PutUint32, List.getD_cons_succ, List.getD_cons_zero]
  omega

theorem Uint16_PutUint16 (v : Nat) (h : v < 2 ^ 16) : Uint16 (PutUint16 v) = v := by
  simp only [Uint16, PutUint16, List.getD_cons_succ, List.getD_cons_zero]
  omega

theorem ReadFull_append (a b : List Nat) : ReadFull (a ++ b) a.length = .ok (a, b) := by
  simp [ReadFull]

theorem ReceiveMessage_frame (n t : Nat) (data rest : List Nat) :
    ReceiveMessage (PutUint32 n ++ PutUint16 t ++ (data ++ rest))
      = match ReadFull (data ++ rest) (Uint32 (PutUint32 n)) with
        | .error e => .error e
        | .ok (d, r) => .ok ({ Type_ := Uint16 (PutUint16 t), Data := d }, r) := by
  have h : ReadFull (PutUint32 n ++ PutUint16 t ++ (data ++ rest)) HEADER_LENGTH
      = .ok (PutUint32 n ++ PutUint16 t, data ++ rest) :=
    ReadFull_append (PutUint32 n ++ PutUint16 t) (data ++ rest)
  unfold ReceiveMessage
  rw [h]
  simp [PutUint32, PutUint16, HEADER_LENGTH_BYTES, TYPE_LENGTH_BYTES]

theorem header_length (data : List Nat) (t : MessageType) :
    (header data t).length = HEADER_LENGTH := by
  simp [header, PutUint32, PutUint16, HEADER_LENGTH]

theorem bigEndianValue_PutUint32 (v : Nat) (h : v < 2 ^ 32) :
    bigEndianValue (PutUint32 v) = v := by
  simp only [bigEndianValue, PutUint32, List.foldl_cons, List.foldl_nil]
  omega

theorem bigEndianValue_PutUint16 (v : Nat) (h : v < 2 ^ 16) :
    bigEndianValue (PutUint16 v) = v := by
  simp only [bigEndianValue, PutUint16, List.foldl_cons, List.foldl_nil]
  omega

/-- A payload of `2^32` bytes, each the letter `A`. -/
theorem bigPayload_length : (List.replicate (2 ^ 32) 65).length = 2 ^ 32 :=
  List.length_replicate _ _

/-- When the payload is exactly `2^32` bytes long the length field is zero:
the frame decodes to an empty payload and the payload stays on the stream. -/
theorem ReceiveMessage_wrapped (t : MessageType) (payload : List Nat) (ht : t < 2 ^ 16)
    (hlen : payload.length = 2 ^ 32) :
    ReceiveMessage (SendMessage payload t) = .ok ({ Type_ := t, Data := [] }, payload) := by
  have h1 : toUint32 payload.length = 0 := by rw [hlen]; exact Nat.mod_self _
  have h2 : toUint16 t = t := Nat.mod_eq_of_lt ht
  have hf := ReceiveMessage_frame 0 t [] payload
  rw [Uint32_PutUint32 0 (by decide), Uint16_PutUint16 t ht, List.nil_append] at hf
  simp only [SendMessage, header, h1, h2]
  rw [hf]
  simp [ReadFull]

theorem take_header_wrapped (t : MessageType) (payload : List Nat)
    (hlen : payload.length = 2 ^ 32) :
    (SendMessage payload t).take 4 = [0, 0, 0, 0] := by
  have h1 : toUint32 payload.length = 0 := by rw [hlen]; exact Nat.mod_self _
  simp only [SendMessage, header, h1]
  simp [PutUint32]

/-- C1, as amended: for every 16-bit type code and every payload shorter than
`2^32` bytes, `ReceiveMessage` applied to the bytes `SendMessage` wrote
(whatever follows them on the stream) returns without error the message with
that type and that payload, and leaves exactly the bytes that followed. -/
theorem roundtrip_SendMessage_ReceiveMessage (t : MessageType) (payload rest : List Nat)
    (ht : t < 2 ^ 16) (hlen : payload.length < 2 ^ 32) :
    ReceiveMessage (SendMessage payload t ++ rest)
      = .ok ({ Type_ := t, Data := payload }, rest) := by
  have h1 : toUint32 payload.length = payload.length := Nat.mod_eq_of_lt hlen
  have h2 : toUint16 t = t := Nat.mod_eq_of_lt ht
  simp only [SendMessage, header, h1, h2, List.append_assoc]
  rw [← List.append_assoc (PutUint32 _), ReceiveMessage_frame,
    Uint32_PutUint32 _ hlen, Uint16_PutUint16 _ ht, ReadFull_append]

theorem roundtrip_SendMessage_ReceiveMessage_witness :
    ReceiveMessage (SendMessage [104, 105] MESSAGE ++ [7])
      = .ok ({ Type_ := MESSAGE, Data := [104, 105] }, [7]) :=
  roundtrip_SendMessage_ReceiveMessage MESSAGE [104, 105] [7] (by decide) (by decide)

/-- C1 fails as stated: for a payload of `2^32` bytes the length field wraps
to zero, so `ReceiveMessage` returns a message with an empty payload and
leaves the whole payload unread on the stream. -/
theorem roundtrip_fails_at_bigPayload :
    ReceiveMessage (SendMessage (List.replicate (2 ^ 32) 65) MESSAGE)
        = .ok ({ Type_ := MESSAGE, Data := [] }, List.replicate (2 ^ 32) 65)
      ∧ ReceiveMessage (SendMessage (List.replicate (2 ^ 32) 65) MESSAGE)
        ≠ .ok ({ Type_ := MESSAGE, Data := List.replicate (2 ^ 32) 65 }, []) := by
  have hrecv := ReceiveMessage_wrapped MESSAGE (List.replicate (2 ^ 32) 65) (by decide)
    bigPayload_length
  refine ⟨hrecv, ?_⟩
  rw [hrecv]
  intro h
  injection h with h
  injection h with h _
  injection h with _ h
  have hl := congrArg List.length h
  rw [bigPayload_length] at hl
  exact absurd hl (by decide)

/-- C2, as amended: the bytes `SendMessage` writes are `6 + len(payload)`
long and end with the payload unchanged; for a 16-bit type code bytes 4..5
are the two bytes whose big-endian value is the type code; and for a payload
shorter than `2^32` bytes, bytes 0..3 are the four bytes whose big-endian
value is the payload length. -/
theorem SendMessage_wire_format (t : MessageType) (payload : List Nat) :
    (SendMessage payload t).length = 6 + payload.length
      ∧ (SendMessage payload t).drop 6 = payload
      ∧ (∀ b ∈ (SendMessage payload t).take 6, b < 256)
      ∧ (t < 2 ^ 16 →
          bigEndianValue (((SendMessage payload t).drop 4).take 2) = t)
      ∧ (payload.length < 2 ^ 32 →
          bigEndianValue ((SendMessage payload t).take 4) = payload.length) := by
  refine ⟨?_, ?_, ?_, ?_, ?_⟩
  · simp [SendMessage, header, PutUint32, PutUint16]; omega
  · simp [SendMessage, header, PutUint32, PutUint16]
  · intro b hb
    simp [SendMessage, header, PutUint32, PutUint16] at hb
    omega
  · intro ht
    have h2 : toUint16 t = t := Nat.mod_eq_of_lt ht
    have : ((SendMessage payload t).drop 4).take 2 = PutUint16 t := by
      simp [SendMessage, header, PutUint32, PutUint16, h2]
    rw [this, bigEndianValue_PutUint16 _ ht]
  · intro hlen
    have h1 : toUint32 payload.length = payload.length := Nat.mod_eq_of_lt hlen
    have : (SendMessage payload t).take 4 = PutUint32 payload.length := by
      simp [SendMessage, header, PutUint32, PutUint16, h1]
    rw [this, bigEndianValue_PutUint32 _ hlen]

theorem SendMessage_wire_format_witness :
    bigEndianValue ((SendMessage [104, 105] MESSAGE).take 4) = [104, 105].length
      ∧ bigEndianValue (((SendMessage [104, 105] MESSAGE).drop 4).take 2) = MESSAGE :=
  ⟨(SendMessage_wire_format MESSAGE [104, 105]).2.2.2.2 (by decide),
   (SendMessage_wire_format MESSAGE [104, 105]).2.2.2.1 (by decide)⟩

/-- C2 fails as stated: for a payload of `2^32` bytes, bytes 0..3 are all
zero, which is not the payload length as a big-endian integer. -/
theorem wire_format_fails_at_bigPayload :
    (SendMessage (List.replicate (2 ^ 32) 65) MESSAGE).take 4 = [0, 0, 0, 0]
      ∧ bigEndianValue ((SendMessage (List.replicate (2 ^ 32) 65) MESSAGE).take 4)
        ≠ (List.replicate (2 ^ 32) 65).length := by
  have htake := take_header_wrapped MESSAGE (List.replicate (2 ^ 32) 65) bigPayload_length
  refine ⟨htake, ?_⟩
  rw [htake, bigPayload_length]
  decide

end Transport

namespace GameServer

open Transport

/-! ### Maps -/

theorem mem_mapDelete (m : List (String × Nat)) (k : String) (e : String × Nat) :
    e ∈ mapDelete m k ↔ e ∈ m ∧ e.1 ≠ k := by
  simp [mapDelete]

theorem mem_mapSet (m : List (String × Nat)) (k : String) (v : Nat) (e : String × Nat) :
    e ∈ mapSet m k v ↔ (e ∈ m ∧ e.1 ≠ k) ∨ e = (k, v) := by
  simp [mapSet, mem_mapDelete]

theorem mapGet_mapDelete_self (m : List (String × Nat)) (k : String) :
    mapGet (mapDelete m k) k = none := by
  simp [mapGet, mapDelete, List.find?_eq_none]

theorem mapGet_mapSet_self (m : List (String × Nat)) (k : String) (v : Nat) :
    mapGet (mapSet m k v) k = some v := by
  have h : (mapDelete m k).find? (fun e => decide (e.1 = k)) = none := by
    simp [mapDelete, List.find?_eq_none]
  simp [mapGet, mapSet, List.find?_append, h]

theorem find?_filter_of {α : Type} (l : List α) (p q : α → Bool) (x : α)
    (h : l.find? q = some x) (hx : p x = true) : (l.filter p).find? q = some x := by
  induction l with
  | nil => simp at h
  | cons y ys ih =>
    by_cases hq : q y = true
    · have hxy : y = x := by simpa [List.find?_cons, hq] using h
      subst hxy
      simp [List.filter_cons, hx, List.find?_cons, hq]
    · have hq' : q y = false := by simpa using hq
      have h' : ys.find? q = some x := by simpa [List.find?_cons, hq'] using h
      by_cases hp : p y = true
      · simp [List.filter_cons, hp, List.find?_cons, hq', ih h']
      · simp [List.filter_cons, hp, ih h']

theorem mapGet_mem (m : List (String × Nat)) (k : String) (v : Nat)
    (h : mapGet m k = some v) : (k, v) ∈ m := by
  unfold mapGet at h
  cases hf : m.find? (fun e => decide (e.1 = k)) with
  | none => simp [hf] at h
  | some e =>
    have hk := List.find?_some hf
    have hm := List.mem_of_find?_eq_some hf
    simp [hf] at h
    simp at hk
    obtain ⟨a, b⟩ := e
    simp at h hk
    subst h hk
    exact hm

/-! ### Writes to the heap and the message log -/

@[simp] theorem modifyPlayer_Players (s : Server) (p : Nat) (f : Player → Player) :
    (modifyPlayer s p f).Players = s.Players := by
  unfold modifyPlayer; split <;> rfl

@[simp] theorem modifyPlayer_Games (s : Server) (p : Nat) (f : Player → Player) :
    (modifyPlayer s p f).Games = s.Games := by
  unfold modifyPlayer; split <;> rfl

@[simp] theorem modifyPlayer_Password (s : Server) (p : Nat) (f : Player → Player) :
    (modifyPlayer s p f).Password = s.Password := by
  unfold modifyPlayer; split <;> rfl

@[simp] theorem modifyPlayer_gameHeap (s : Server) (p : Nat) (f : Player → Player) :
    (modifyPlayer s p f).gameHeap = s.gameHeap := by
  unfold modifyPlayer; split <;> rfl

@[simp] theorem modifyPlayer_sent (s : Server) (p : Nat) (f : Player → Player) :
    (modifyPlayer s p f).sent = s.sent := by
  unfold modifyPlayer; split <;> rfl

@[simp] theorem modifyPlayer_closed (s : Server) (p : Nat) (f : Player → Player) :
    (modifyPlayer s p f).closed = s.closed := by
  unfold modifyPlayer; split <;> rfl

@[simp] theorem modifyPlayer_length (s : Server) (p : Nat) (f : Player → Player) :
    (modifyPlayer s p f).playerHeap.length = s.playerHeap.length := by
  unfold modifyPlayer; split <;> simp

theorem modifyPlayer_get (s : Server) (p q : Nat) (f : Player → Player) :
    (modifyPlayer s p f).playerHeap[q]? =
      if p = q then (s.playerHeap[q]?).map f else s.playerHeap[q]? := by
  unfold modifyPlayer
  by_cases hpq : p = q
  · subst hpq
    cases h : s.playerHeap[p]? with
    | none => simp [h]
    | some P =>
      have hlt : p < s.playerHeap.length := by
        rcases List.getElem?_eq_some_iff.mp h with ⟨hlt, _⟩
        exact hlt
      simp [h, List.getElem?_set, hlt]
  · cases h : s.playerHeap[p]? with
    | none => simp [hpq]
    | some P => simp [hpq, List.getElem?_set]

@[simp] theorem modifyPlayer_get_self (s : Server) (p : Nat) (f : Player → Player) :
    (modifyPlayer s p f).playerHeap[p]? = (s.playerHeap[p]?).map f := by
  simp [modifyPlayer_get]

theorem modifyPlayer_get_ne (s : Server) (p q : Nat) (f : Player → Player) (h : p ≠ q) :
    (modifyPlayer s p f).playerHeap[q]? = s.playerHeap[q]? := by
  simp [modifyPlayer_get, h]

@[simp] theorem SendMessage_playerHeap (s : Server) (c : Nat) (m : String) (t : MessageType) :
    (SendMessage s c m t).playerHeap = s.playerHeap := rfl

@[simp] theorem SendMessage_gameHeap (s : Server) (c : Nat) (m : String) (t : MessageType) :
    (SendMessage s c m t).gameHeap = s.gameHeap := rfl

@[simp] theorem SendMessage_Players (s : Server) (c : Nat) (m : String) (t : MessageType) :
    (SendMessage s c m t).Players = s.Players := rfl

@[simp] theorem SendMessage_Games (s : Server) (c : Nat) (m : String) (t : MessageType) :
    (SendMessage s c m t).Games = s.Games := rfl

@[simp] theorem SendMessage_Password (s : Server) (c : Nat) (m : String) (t : MessageType) :
    (SendMessage s c m t).Password = s.Password := rfl

@[simp] theorem SendMessage_closed (s : Server) (c : Nat) (m : String) (t : MessageType) :
    (SendMessage s c m t).closed = s.closed := rfl

@[simp] theorem SendMessage_sent (s : Server) (c : Nat) (m : String) (t : MessageType) :
    (SendMessage s c m t).sent = s.sent ++ [{ conn := c, Data := m, Type_ := t }] := rfl

@[simp] theorem deletePlayers_Players (s : Server) (k : String) :
    (deletePlayers s k).Players = mapDelete s.Players k := rfl

@[simp] theorem deletePlayers_Games (s : Server) (k : String) :
    (deletePlayers s k).Games = s.Games := rfl

@[simp] theorem deletePlayers_Password (s : Server) (k : String) :
    (deletePlayers s k).Password = s.Password := rfl

@[simp] theorem deletePlayers_playerHeap (s : Server) (k : String) :
    (deletePlayers s k).playerHeap = s.playerHeap := rfl

@[simp] theorem deletePlayers_gameHeap (s : Server) (k : String) :
    (deletePlayers s k).gameHeap = s.gameHeap := rfl

@[simp] theorem deletePlayers_sent (s : Server) (k : String) :
    (deletePlayers s k).sent = s.sent := rfl

@[simp] theorem deletePlayers_closed (s : Server) (k : String) :
    (deletePlayers s k).closed = s.closed := rfl

@[simp] theorem storePlayers_Players (s : Server) (k : String) (v : Nat) :
    (storePlayers s k v).Players = mapSet s.Players k v := rfl

@[simp] theorem storePlayers_Games (s : Server) (k : String) (v : Nat) :
    (storePlayers s k v).Games = s.Games := rfl

@[simp] theorem storePlayers_Password (s : Server) (k : String) (v : Nat) :
    (storePlayers s k v).Password = s.Password := rfl

@[simp] theorem storePlayers_playerHeap (s : Server) (k : String) (v : Nat) :
    (storePlayers s k v).playerHeap = s.playerHeap := rfl

@[simp] theorem storePlayers_gameHeap (s : Server) (k : String) (v : Nat) :
    (storePlayers s k v).gameHeap = s.gameHeap := rfl

@[simp] theorem storePlayers_sent (s : Server) (k : String) (v : Nat) :
    (storePlayers s k v).sent = s.sent := rfl

@[simp] theorem storePlayers_closed (s : Server) (k : String) (v : Nat) :
    (storePlayers s k v).closed = s.closed := rfl

@[simp] theorem deleteGames_Players (s : Server) (k : String) :
    (deleteGames s k).Players = s.Players := rfl

@[simp] theorem deleteGames_Games (s : Server) (k : String) :
    (deleteGames s k).Games = mapDelete s.Games k := rfl

@[simp] theorem deleteGames_Password (s : Server) (k : String) :
    (deleteGames s k).Password = s.Password := rfl

@[simp] theorem deleteGames_playerHeap (s : Server) (k : String) :
    (deleteGames s k).playerHeap = s.playerHeap := rfl

@[simp] theorem deleteGames_gameHeap (s : Server) (k : String) :
    (deleteGames s k).gameHeap = s.gameHeap := rfl

@[simp] theorem deleteGames_sent (s : Server) (k : String) :
    (deleteGames s k).sent = s.sent := rfl

@[simp] theorem deleteGames_closed (s : Server) (k : String) :
    (deleteGames s k).closed = s.closed := rfl

@[simp] theorem storeGames_Players (s : Server) (k : String) (v : Nat) :
    (storeGames s k v).Players = s.Players := rfl

@[simp] theorem storeGames_Games (s : Server) (k : String) (v : Nat) :
    (storeGames s k v).Games = mapSet s.Games k v := rfl

@[simp] theorem storeGames_Password (s : Server) (k : String) (v : Nat) :
    (storeGames s k v).Password = s.Password := rfl

@[simp] theorem storeGames_playerHeap (s : Server) (k : String) (v : Nat) :
    (storeGames s k v).playerHeap = s.playerHeap := rfl

@[simp] theorem storeGames_gameHeap (s : Server) (k : String) (v : Nat) :
    (storeGames s k v).gameHeap = s.gameHeap := rfl

@[simp] theorem storeGames_sent (s : Server) (k : String) (v : Nat) :
    (storeGames s k v).sent = s.sent := rfl

@[simp] theorem storeGames_closed (s : Server) (k : String) (v : Nat) :
    (storeGames s k v).closed = s.closed := rfl

@[simp] theorem allocGame_Players (s : Server) (G : Game) :
    (allocGame s G).Players = s.Players := rfl

@[simp] theorem allocGame_Games (s : Server) (G : Game) :
    (allocGame s G).Games = s.Games := rfl

@[simp] theorem allocGame_Password (s : Server) (G : Game) :
    (allocGame s G).Password = s.Password := rfl

@[simp] theorem allocGame_playerHeap (s : Server) (G : Game) :
    (allocGame s G).playerHeap = s.playerHeap := rfl

@[simp] theorem allocGame_gameHeap (s : Server) (G : Game) :
    (allocGame s G).gameHeap = s.gameHeap ++ [G] := rfl

@[simp] theorem allocGame_sent (s : Server) (G : Game) :
    (allocGame s G).sent = s.sent := rfl

@[simp] theorem allocGame_closed (s : Server) (G : Game) :
    (allocGame s G).closed = s.closed := rfl

theorem append_ne_append_of_head (a b x y : String) (c d : Char) (cs ds : List Char)
    (ha : a.data = c :: cs) (hb : b.data = d :: ds) (hcd : c ≠ d) : a ++ x ≠ b ++ y := by
  intro h
  have h' := congrArg String.data h
  simp only [String.data_append, ha, hb, List.cons_append] at h'
  injection h' with h1 _
  exact hcd h1

/-! ### Game creation -/

theorem initializeGame_spec (s : Server) (a b : Nat) (word id : String) (A B : Player)
    (hA : s.playerHeap[a]? = some A) (hB : s.playerHeap[b]? = some B) :
    ∃ s', initializeGame s a b word id = some s'
      ∧ s'.gameHeap = s.gameHeap ++ [newGame a b word id]
      ∧ s'.Games = mapSet s.Games id s.gameHeap.length
      ∧ s'.Players = s.Players
      ∧ s'.Password = s.Password
      ∧ s'.closed = s.closed
      ∧ (∀ q, s'.playerHeap[q]? =
          (s.playerHeap[q]?).map (startedPlayer a b s.gameHeap.length q))
      ∧ s'.sent = s.sent ++
          [{ conn := B.conn,
             Data := "Player " ++ A.ID ++ " has started game against you. Now guess his word...",
             Type_ := GAME_STARTED },
           { conn := A.conn,
             Data := "You started game against player " ++ B.ID ++
               " You can send him some hints if he struggles with your word",
             Type_ := GAME_STARTED }] := by
  cases h : initializeGame s a b word id with
  | none =>
    by_cases hab : a = b
    · subst hab
      simp [initializeGame, modifyPlayer_get, hA] at h
    · have hba : b ≠ a := fun h => hab h.symm
      simp [initializeGame, modifyPlayer_get, hA, hB, hab, hba] at h
  | some s' =>
    refine ⟨s', rfl, ?_⟩
    by_cases hab : a = b
    · subst hab
      have hAB : B = A := by rw [hA] at hB; exact (Option.some.inj hB).symm
      subst hAB
      simp [initializeGame, modifyPlayer_get, hA] at h
      subst h
      refine ⟨?_, ?_, ?_, ?_, ?_, ?_, ?_⟩ <;> try simp
      intro q
      by_cases hq : q = a
      · subst hq; simp [modifyPlayer_get, hA, startedPlayer]
      · have hq' : a ≠ q := fun h => hq h.symm
        simp only [modifyPlayer_get, hq', if_false, storeGames_playerHeap,
          allocGame_playerHeap]
        cases s.playerHeap[q]? <;> simp [startedPlayer, hq]
    · have hba : b ≠ a := fun h => hab h.symm
      simp [initializeGame, modifyPlayer_get, hA, hB, hab, hba] at h
      subst h
      refine ⟨?_, ?_, ?_, ?_, ?_, ?_, ?_⟩ <;> try simp
      intro q
      by_cases hqb : q = b
      · subst hqb; simp [modifyPlayer_get, hB, startedPlayer, hab]
      · by_cases hqa : q = a
        · subst hqa
          have h1 : b ≠ q := fun h => hqb h.symm
          simp [modifyPlayer_get, hA, startedPlayer, hqb, h1]
        · have h1 : b ≠ q := fun h => hqb h.symm
          have h2 : a ≠ q := fun h => hqa h.symm
          simp only [modifyPlayer_get, h1, h2, if_false, storeGames_playerHeap,
            allocGame_playerHeap]
          cases s.playerHeap[q]? <;> simp [startedPlayer, hqb, hqa]

theorem startedPlayer_currentGame (a b g q : Nat) (P : Player) (h : q = a ∨ q = b) :
    (startedPlayer a b g q P).currentGame = some g := by
  unfold startedPlayer
  rcases h with h | h
  · by_cases hb : q = b
    · rw [if_pos hb]
    · rw [if_neg hb, if_pos h]
  · rw [if_pos h]

theorem isFree_currentGame (s : Server) (x q : Nat) (h : isFree s x q = true) :
    ∃ Q, s.playerHeap[q]? = some Q ∧ Q.currentGame = none := by
  unfold isFree at h
  cases hq : s.playerHeap[q]? with
  | none => simp [hq] at h
  | some Q =>
    cases hx : s.playerHeap[x]? with
    | none => simp [hq, hx] at h
    | some X =>
      simp [hq, hx] at h
      exact ⟨Q, rfl, h.1⟩

/-- C4: when player A (at the receive of `pickOponentForPlayer`, the step of
an Authenticated player) gets an init-game request whose payload splits into
exactly the two fields `opponentId` and `secretWord`, and `opponentId` is the
identifier of a registered player B with no active game whose identifier
differs from A's, then the step returns and afterwards: a new game object `g`
with `Player = A`, `Opponent = B` and `SecretWord = secretWord` is stored in
the game registry, A is Playing, B is Guessing, both have `g` as current
game, and exactly two messages were sent, a game-started message to B and a
game-started message to A, with different texts. -/
theorem pickOponentForPlayer_init_game (s : Server) (a b : Nat) (A B : Player)
    (payload opponentId secretWord id : String)
    (hA : s.playerHeap[a]? = some A)
    (hfields : Fields payload = [opponentId, secretWord])
    (hreg : mapGet s.Players opponentId = some b)
    (hB : s.playerHeap[b]? = some B) (hBid : B.ID = opponentId)
    (hBfree : B.currentGame = none) (hne : B.ID ≠ A.ID) :
    ∃ s', pickOponentForPlayer s a (some { Type_ := INIT_GAME, Data := payload }) id = some s'
      ∧ s.gameHeap[s.gameHeap.length]? = none
      ∧ s'.gameHeap[s.gameHeap.length]? =
          some { ID := id, Player := a, Opponent := b, SecretWord := secretWord }
      ∧ mapGet s'.Games id = some s.gameHeap.length
      ∧ s'.playerHeap[a]? =
          some { A with state := PlayerState.Playing, currentGame := some s.gameHeap.length }
      ∧ s'.playerHeap[b]? =
          some { B with state := PlayerState.Guessing, currentGame := some s.gameHeap.length }
      ∧ ∃ textB textA,
          s'.sent = s.sent ++
            [{ conn := B.conn, Data := textB, Type_ := GAME_STARTED },
             { conn := A.conn, Data := textA, Type_ := GAME_STARTED }]
          ∧ textB ≠ textA := by
  have hab : a ≠ b := by
    intro h
    subst h
    rw [hA] at hB
    exact hne (by rw [Option.some.inj hB])
  have hfree : isFree s a b = true := by
    simp [isFree, hA, hB, hBfree, Ne.symm hne]
  have hget : mapGet (getFreePlayers s a) opponentId = some b := by
    unfold mapGet getFreePlayers
    unfold mapGet at hreg
    cases hf : s.Players.find? (fun e => decide (e.1 = opponentId)) with
    | none => simp [hf] at hreg
    | some e =>
      have he : e.2 = b := by simpa [hf] using hreg
      rw [find?_filter_of s.Players _ _ e hf (by rw [he]; exact hfree)]
      simp [he]
  obtain ⟨s', hs', hheap, hgames, _, _, _, hplayers, hsent⟩ :=
    initializeGame_spec s a b secretWord id A B hA hB
  have hid : ¬ opponentId = A.ID := by rw [← hBid]; exact hne
  refine ⟨s', ?_, ?_, ?_, ?_, ?_, ?_, ?_⟩
  · simp [pickOponentForPlayer, INIT_GAME, DISCONNECT, GET_PLAYERS, hfields, handleInitGame,
      hA, hid, hget, hs']
  · simp
  · rw [hheap]; simp [newGame]
  · rw [hgames]; exact mapGet_mapSet_self _ _ _
  · rw [hplayers a, hA]; simp [startedPlayer, hab]
  · rw [hplayers b, hB]; simp [startedPlayer]
  · refine ⟨_, _, hsent, ?_⟩
    simp only [String.append_assoc]
    exact append_ne_append_of_head _ _ _ _ 'P' 'Y' _ _ rfl rfl (by decide)

theorem pickOponentForPlayer_init_game_witness :
    ∃ s', pickOponentForPlayer exampleLobby 0
          (some { Type_ := INIT_GAME, Data := "0000000b banana" }) "0000000c" = some s'
      ∧ exampleLobby.gameHeap[exampleLobby.gameHeap.length]? = none
      ∧ s'.gameHeap[exampleLobby.gameHeap.length]? =
          some { ID := "0000000c", Player := 0, Opponent := 1, SecretWord := "banana" }
      ∧ mapGet s'.Games "0000000c" = some exampleLobby.gameHeap.length
      ∧ s'.playerHeap[0]? =
          some { ID := "0000000a", conn := 10, state := PlayerState.Playing,
                 currentGame := some exampleLobby.gameHeap.length }
      ∧ s'.playerHeap[1]? =
          some { ID := "0000000b", conn := 11, state := PlayerState.Guessing,
                 currentGame := some exampleLobby.gameHeap.length }
      ∧ ∃ textB textA,
          s'.sent = exampleLobby.sent ++
            [{ conn := 11, Data := textB, Type_ := GAME_STARTED },
             { conn := 10, Data := textA, Type_ := GAME_STARTED }]
          ∧ textB ≠ textA :=
  pickOponentForPlayer_init_game exampleLobby 0 1
    { ID := "0000000a", conn := 10, state := PlayerState.Authenticated, currentGame := none }
    { ID := "0000000b", conn := 11, state := PlayerState.Authenticated, currentGame := none }
    "0000000b banana" "0000000b" "banana" "0000000c"
    (by rfl) (by decide) (by decide) (by rfl) (by rfl) (by rfl) (by decide)

/-- C5: if `initializeGame(A, B, word)` is called, it returns and in the
resulting state neither B nor A is an entry of `getFreePlayers(X)`, for any
requesting player X. -/
theorem initializeGame_not_free (s : Server) (a b : Nat) (word id : String) (A B : Player)
    (hA : s.playerHeap[a]? = some A) (hB : s.playerHeap[b]? = some B) :
    ∃ s', initializeGame s a b word id = some s'
      ∧ ∀ x, ∀ e ∈ getFreePlayers s' x, e.2 ≠ b ∧ e.2 ≠ a := by
  obtain ⟨s', hs', _, _, _, _, _, hplayers, _⟩ := initializeGame_spec s a b word id A B hA hB
  refine ⟨s', hs', ?_⟩
  intro x e he
  have hfree : isFree s' x e.2 = true := by
    simp only [getFreePlayers, List.mem_filter] at he
    exact he.2
  obtain ⟨Q, hQ, hQg⟩ := isFree_currentGame s' x e.2 hfree
  have key : ∀ q P, s.playerHeap[q]? = some P → (q = a ∨ q = b) → e.2 ≠ q := by
    intro q P hP hq heq
    rw [heq, hplayers q, hP] at hQ
    have hQ' : startedPlayer a b s.gameHeap.length q P = Q := by simpa using hQ
    rw [← hQ', startedPlayer_currentGame a b _ q P hq] at hQg
    exact absurd hQg (by simp)
  exact ⟨key b B hB (Or.inr rfl), key a A hA (Or.inl rfl)⟩

theorem initializeGame_not_free_witness :
    ∃ s', initializeGame exampleLobby 0 1 "banana" "0000000c" = some s'
      ∧ ∀ x, ∀ e ∈ getFreePlayers s' x, e.2 ≠ 1 ∧ e.2 ≠ 0 :=
  initializeGame_not_free exampleLobby 0 1 "banana" "0000000c"
    { ID := "0000000a", conn := 10, state := PlayerState.Authenticated, currentGame := none }
    { ID := "0000000b", conn := 11, state := PlayerState.Authenticated, currentGame := none }
    (by rfl) (by rfl)

/-! ### Game termination -/

theorem terminateGame_spec (s : Server) (g : Nat) (G : Game)
    (hG : s.gameHeap[g]? = some G) :
    ∃ s', terminateGame s (some g) = some s'
      ∧ s'.Games = mapDelete s.Games G.ID
      ∧ s'.Players = s.Players
      ∧ s'.gameHeap = s.gameHeap
      ∧ s'.sent = s.sent
      ∧ s'.closed = s.closed
      ∧ s'.Password = s.Password
      ∧ (∀ q, s'.playerHeap[q]? = (s.playerHeap[q]?).map (restoredPlayer G q)) := by
  cases h : terminateGame s (some g) with
  | none => simp [terminateGame, hG] at h
  | some s' =>
    refine ⟨s', rfl, ?_⟩
    simp [terminateGame, hG] at h
    subst h
    refine ⟨?_, ?_, ?_, ?_, ?_, ?_, ?_⟩ <;> try simp [restoreInitState]
    intro q
    have e1 : (q = G.Player) = (G.Player = q) := propext eq_comm
    have e2 : (q = G.Opponent) = (G.Opponent = q) := propext eq_comm
    by_cases h1 : G.Player = q <;> by_cases h2 : G.Opponent = q <;>
      cases hq : s.playerHeap[q]? <;>
      simp [modifyPlayer_get, restoredPlayer, e1, e2, h1, h2, hq]

theorem restoredPlayer_of_mem (G : Game) (q : Nat) (P : Player)
    (h : q = G.Player ∨ q = G.Opponent) :
    restoredPlayer G q P = { P with state := PlayerState.Authenticated, currentGame := none } := by
  unfold restoredPlayer
  rw [if_pos h]

theorem mapDelete_removed (m : List (String × Nat)) (k : String) (v : Nat)
    (hkey : ∀ e ∈ m, e.2 = v → e.1 = k) : ∀ e ∈ mapDelete m k, e.2 ≠ v := by
  intro e he hv
  rw [mem_mapDelete] at he
  exact he.2 (hkey e he.1 hv)

/-! ### The guesser's step -/

/-- C6: for every game `G` (the current game of the guesser `P`, whose setter
is `S`) and every plain message of the guesser whose payload the
case-insensitive comparison `EqualFold` accepts against the secret word, the
guess step returns and ends the game: exactly two messages are sent, the win
notice to the guesser and the game-terminated notice "Opponent guessed your
word correctly!" to the setter; both players end in state Authenticated with
no active game; and the game registry has lost the entry of `G.ID` (and so,
when it is keyed by identifier, every entry of this game) and gained none. -/
theorem guess_correct_ends_game (EqualFold : String → String → Bool) (s : Server)
    (p g : Nat) (P S : Player) (G : Game) (payload : String)
    (hP : s.playerHeap[p]? = some P) (hg : P.currentGame = some g)
    (hG : s.gameHeap[g]? = some G) (hguesser : G.Opponent = p)
    (hS : s.playerHeap[G.Player]? = some S)
    (hfold : EqualFold G.SecretWord payload = true) :
    ∃ s', guess EqualFold s p (some { Type_ := MESSAGE, Data := payload }) = some s'
      ∧ s'.sent = s.sent ++
          [{ conn := P.conn,
             Data := "This is correct! You have won! Pick another game if you wish\n",
             Type_ := MESSAGE },
           { conn := S.conn,
             Data := "Opponent guessed your word correctly! Pick another game if you wish\n",
             Type_ := GAME_TERMINATED }]
      ∧ s'.playerHeap[p]? =
          some { P with state := PlayerState.Authenticated, currentGame := none }
      ∧ s'.playerHeap[G.Player]? =
          some { S with state := PlayerState.Authenticated, currentGame := none }
      ∧ mapGet s'.Games G.ID = none
      ∧ (∀ e ∈ s'.Games, e ∈ s.Games ∧ e.1 ≠ G.ID)
      ∧ ((∀ e ∈ s.Games, e.2 = g → e.1 = G.ID) → ∀ e ∈ s'.Games, e.2 ≠ g) := by
  have hO : s.playerHeap[G.Opponent]? = some P := by rw [hguesser]; exact hP
  obtain ⟨s', hs', hgames, _, _, hsent, _, _, hplayers⟩ :=
    terminateGame_spec
      (SendMessage
        (SendMessage s P.conn
          "This is correct! You have won! Pick another game if you wish\n" MESSAGE)
        S.conn "Opponent guessed your word correctly! Pick another game if you wish\n"
        GAME_TERMINATED) g G (by simpa using hG)
  refine ⟨s', ?_, ?_, ?_, ?_, ?_, ?_, ?_⟩
  · simp [guess, hP, hg, hG, hO, hS, hfold, MESSAGE, GAME_TERMINATED, GIVE_UP]
    simpa [MESSAGE, GAME_TERMINATED] using hs'
  · rw [hsent]; simp
  · rw [hplayers p]
    simp [hP, restoredPlayer_of_mem G p P (Or.inr hguesser.symm)]
  · rw [hplayers G.Player]
    simp [hS, restoredPlayer_of_mem G G.Player S (Or.inl rfl)]
  · rw [hgames]; exact mapGet_mapDelete_self _ _
  · intro e he
    rw [hgames] at he
    exact (mem_mapDelete _ _ _).mp he
  · intro hkey
    rw [hgames]
    exact mapDelete_removed _ _ _ hkey

/-- C7: for every game `G` (the current game of the guesser `P`, whose setter
is `S`) and every plain message of the guesser whose payload the
case-insensitive comparison `EqualFold` rejects against the secret word, the
guess step returns, sends exactly two messages, the incorrect-guess notice to
the guesser and a message made of a fixed prefix, the literal guess text and
a newline to the setter, and changes neither registry nor any player or game
object. -/
theorem guess_incorrect_no_change (EqualFold : String → String → Bool) (s : Server)
    (p g : Nat) (P S : Player) (G : Game) (payload : String)
    (hP : s.playerHeap[p]? = some P) (hg : P.currentGame = some g)
    (hG : s.gameHeap[g]? = some G) (hguesser : G.Opponent = p)
    (hS : s.playerHeap[G.Player]? = some S)
    (hfold : EqualFold G.SecretWord payload = false) :
    ∃ s', guess EqualFold s p (some { Type_ := MESSAGE, Data := payload }) = some s'
      ∧ s'.sent = s.sent ++
          [{ conn := P.conn,
             Data := "This is not the secret word. Take another guess!\n",
             Type_ := MESSAGE },
           { conn := S.conn,
             Data := "Opponent guessed incorect word: " ++ payload ++ "\n",
             Type_ := MESSAGE }]
      ∧ s'.Players = s.Players
      ∧ s'.Games = s.Games
      ∧ s'.playerHeap = s.playerHeap
      ∧ s'.gameHeap = s.gameHeap
      ∧ s'.closed = s.closed
      ∧ s'.Password = s.Password := by
  have hO : s.playerHeap[G.Opponent]? = some P := by rw [hguesser]; exact hP
  refine ⟨SendMessage
      (SendMessage s P.conn "This is not the secret word. Take another guess!\n" MESSAGE)
      S.conn ("Opponent guessed incorect word: " ++ payload ++ "\n") MESSAGE, ?_, ?_⟩
  · simp [guess, hP, hg, hG, hO, hS, hfold, MESSAGE, GAME_TERMINATED, GIVE_UP]
  · simp

theorem guess_correct_ends_game_witness :
    (asciiEqualFold "apple" "Apple" = true ∧ asciiEqualFold "apple" "apple" = true
      ∧ asciiEqualFold "apple" "APPLE" = true)
    ∧ ∃ s', guess asciiEqualFold exampleGame 1 (some { Type_ := MESSAGE, Data := "APPLE" })
          = some s'
      ∧ s'.sent = exampleGame.sent ++
          [{ conn := 11,
             Data := "This is correct! You have won! Pick another game if you wish\n",
             Type_ := MESSAGE },
           { conn := 10,
             Data := "Opponent guessed your word correctly! Pick another game if you wish\n",
             Type_ := GAME_TERMINATED }]
      ∧ s'.playerHeap[1]? =
          some { ID := "0000000b", conn := 11, state := PlayerState.Authenticated,
                 currentGame := none }
      ∧ s'.playerHeap[0]? =
          some { ID := "0000000a", conn := 10, state := PlayerState.Authenticated,
                 currentGame := none }
      ∧ mapGet s'.Games "0000000c" = none
      ∧ (∀ e ∈ s'.Games, e ∈ exampleGame.Games ∧ e.1 ≠ "0000000c")
      ∧ ((∀ e ∈ exampleGame.Games, e.2 = 0 → e.1 = "0000000c") → ∀ e ∈ s'.Games, e.2 ≠ 0) :=
  ⟨by decide,
   guess_correct_ends_game asciiEqualFold exampleGame 1 0
    { ID := "0000000b", conn := 11, state := PlayerState.Guessing, currentGame := some 0 }
    { ID := "0000000a", conn := 10, state := PlayerState.Playing, currentGame := some 0 }
    { ID := "0000000c", Player := 0, Opponent := 1, SecretWord := "apple" } "APPLE"
    (by rfl) (by rfl) (by rfl) (by rfl) (by rfl) (by decide)⟩

theorem guess_incorrect_no_change_witness :
    ∃ s', guess asciiEqualFold exampleGame 1 (some { Type_ := MESSAGE, Data := "pear" })
          = some s'
      ∧ s'.sent = exampleGame.sent ++
          [{ conn := 11,
             Data := "This is not the secret word. Take another guess!\n",
             Type_ := MESSAGE },
           { conn := 10,
             Data := "Opponent guessed incorect word: " ++ "pear" ++ "\n",
             Type_ := MESSAGE }]
      ∧ s'.Players = exampleGame.Players
      ∧ s'.Games = exampleGame.Games
      ∧ s'.playerHeap = exampleGame.playerHeap
      ∧ s'.gameHeap = exampleGame.gameHeap
      ∧ s'.closed = exampleGame.closed
      ∧ s'.Password = exampleGame.Password :=
  guess_incorrect_no_change asciiEqualFold exampleGame 1 0
    { ID := "0000000b", conn := 11, state := PlayerState.Guessing, currentGame := some 0 }
    { ID := "0000000a", conn := 10, state := PlayerState.Playing, currentGame := some 0 }
    { ID := "0000000c", Player := 0, Opponent := 1, SecretWord := "apple" } "pear"
    (by rfl) (by rfl) (by rfl) (by rfl) (by rfl) (by decide)

/-! ### Disconnects during a game -/

/-- C9: for every game `G` that is the current game of the player `P` whose
play step it is (the setter), with guesser `O`: when the receive of the play
step fails, the step returns; the player registry has lost the entry of the setter's identifier
(and so, when it is keyed by identifier, every entry of the setter) and
gained none; the game registry has lost the entry of `G.ID` and gained none;
the guesser is Authenticated with no active game; and exactly two messages
are sent, the disconnect notice on the setter's own connection and a
game-terminated message to the guesser whose text contains the secret word. -/
theorem play_receive_failure (s : Server) (p g : Nat) (P O : Player) (G : Game)
    (hP : s.playerHeap[p]? = some P) (hg : P.currentGame = some g)
    (hG : s.gameHeap[g]? = some G) (hO : s.playerHeap[G.Opponent]? = some O) :
    ∃ s', play s p none = some s'
      ∧ mapGet s'.Players P.ID = none
      ∧ (∀ e ∈ s'.Players, e ∈ s.Players ∧ e.1 ≠ P.ID)
      ∧ ((∀ e ∈ s.Players, e.2 = p → e.1 = P.ID) → ∀ e ∈ s'.Players, e.2 ≠ p)
      ∧ mapGet s'.Games G.ID = none
      ∧ (∀ e ∈ s'.Games, e ∈ s.Games ∧ e.1 ≠ G.ID)
      ∧ ((∀ e ∈ s.Games, e.2 = g → e.1 = G.ID) → ∀ e ∈ s'.Games, e.2 ≠ g)
      ∧ s'.playerHeap[G.Opponent]? =
          some { O with state := PlayerState.Authenticated, currentGame := none }
      ∧ s'.sent = s.sent ++
          [{ conn := P.conn, Data := "", Type_ := DISCONNECT },
           { conn := O.conn,
             Data :=
               "Game was terminated. Player probably disconnected from the server. Secret word was '"
                 ++ G.SecretWord ++ "' Pick another game\n",
             Type_ := GAME_TERMINATED }] := by
  obtain ⟨s1, hs1, hgames, hpl, hgh, hsent, _, _, hplayers⟩ :=
    terminateGame_spec
      (deletePlayers (SendMessage s P.conn "" DISCONNECT) P.ID) g G
      (by simpa using hG)
  have hO1 : s1.playerHeap[G.Opponent]? =
      some { O with state := PlayerState.Authenticated, currentGame := none } := by
    rw [hplayers G.Opponent]
    simp [hO, restoredPlayer_of_mem G G.Opponent O (Or.inr rfl)]
  have hG1 : s1.gameHeap[g]? = some G := by rw [hgh]; simpa using hG
  refine ⟨SendMessage s1 O.conn
      ("Game was terminated. Player probably disconnected from the server. Secret word was '"
        ++ G.SecretWord ++ "' Pick another game\n") GAME_TERMINATED, ?_, ?_⟩
  · simp [play, disconnectPlayer, hP, hg, hs1, hG1, hO1]
  · simp only [SendMessage_Players, SendMessage_Games, SendMessage_playerHeap, SendMessage_sent,
      hgames, hpl, hsent]
    refine ⟨mapGet_mapDelete_self _ _, fun e he => (mem_mapDelete _ _ _).mp he,
      fun hkey => mapDelete_removed _ _ _ hkey, mapGet_mapDelete_self _ _,
      fun e he => (mem_mapDelete _ _ _).mp he, fun hkey => mapDelete_removed _ _ _ hkey,
      hO1, ?_⟩
    simp

theorem play_receive_failure_witness :
    ∃ s', play exampleGame 0 none = some s'
      ∧ mapGet s'.Players "0000000a" = none
      ∧ (∀ e ∈ s'.Players, e ∈ exampleGame.Players ∧ e.1 ≠ "0000000a")
      ∧ ((∀ e ∈ exampleGame.Players, e.2 = 0 → e.1 = "0000000a") → ∀ e ∈ s'.Players, e.2 ≠ 0)
      ∧ mapGet s'.Games "0000000c" = none
      ∧ (∀ e ∈ s'.Games, e ∈ exampleGame.Games ∧ e.1 ≠ "0000000c")
      ∧ ((∀ e ∈ exampleGame.Games, e.2 = 0 → e.1 = "0000000c") → ∀ e ∈ s'.Games, e.2 ≠ 0)
      ∧ s'.playerHeap[1]? =
          some { ID := "0000000b", conn := 11, state := PlayerState.Authenticated,
                 currentGame := none }
      ∧ s'.sent = exampleGame.sent ++
          [{ conn := 10, Data := "", Type_ := DISCONNECT },
           { conn := 11,
             Data :=
               "Game was terminated. Player probably disconnected from the server. Secret word was '"
                 ++ "apple" ++ "' Pick another game\n",
             Type_ := GAME_TERMINATED }] :=
  play_receive_failure exampleGame 0 0
    { ID := "0000000a", conn := 10, state := PlayerState.Playing, currentGame := some 0 }
    { ID := "0000000b", conn := 11, state := PlayerState.Guessing, currentGame := some 0 }
    { ID := "0000000c", Player := 0, Opponent := 1, SecretWord := "apple" }
    (by rfl) (by rfl) (by rfl) (by rfl)

@[simp] theorem withSecretWord_playerHeap (s : Server) (g : Nat) (w : String) :
    (withSecretWord s g w).playerHeap = s.playerHeap := by
  unfold withSecretWord; split <;> rfl

@[simp] theorem withSecretWord_sent (s : Server) (g : Nat) (w : String) :
    (withSecretWord s g w).sent = s.sent := by
  unfold withSecretWord; split <;> rfl

@[simp] theorem withSecretWord_Players (s : Server) (g : Nat) (w : String) :
    (withSecretWord s g w).Players = s.Players := by
  unfold withSecretWord; split <;> rfl

@[simp] theorem withSecretWord_Games (s : Server) (g : Nat) (w : String) :
    (withSecretWord s g w).Games = s.Games := by
  unfold withSecretWord; split <;> rfl

theorem withSecretWord_get (s : Server) (g : Nat) (w : String) (G : Game)
    (hG : s.gameHeap[g]? = some G) :
    (withSecretWord s g w).gameHeap[g]? = some { G with SecretWord := w } := by
  have hlt : g < s.gameHeap.length := by
    rcases List.getElem?_eq_some_iff.mp hG with ⟨hlt, _⟩
    exact hlt
  simp [withSecretWord, hG, List.getElem?_set, hlt]

/-- The failure branch of `guess` in one state. -/
theorem guess_none_spec (EqualFold : String → String → Bool) (s : Server)
    (p g : Nat) (P S : Player) (G : Game)
    (hP : s.playerHeap[p]? = some P) (hg : P.currentGame = some g)
    (hG : s.gameHeap[g]? = some G) (hS : s.playerHeap[G.Player]? = some S) :
    ∃ s', guess EqualFold s p none = some s'
      ∧ s'.Players = mapDelete s.Players P.ID
      ∧ s'.Games = mapDelete s.Games G.ID
      ∧ s'.sent = s.sent ++
          [{ conn := P.conn, Data := "", Type_ := DISCONNECT },
           { conn := S.conn,
             Data :=
               "Game was terminated. Opponent probably disconnected from the server. Pick another game\n",
             Type_ := GAME_TERMINATED }] := by
  obtain ⟨s1, hs1, hgames, hpl, hgh, hsent, _, _, hplayers⟩ :=
    terminateGame_spec (deletePlayers (SendMessage s P.conn "" DISCONNECT) P.ID) g G
      (by simpa using hG)
  have hS1 : s1.playerHeap[G.Player]? =
      some { S with state := PlayerState.Authenticated, currentGame := none } := by
    rw [hplayers G.Player]
    simp [hS, restoredPlayer_of_mem G G.Player S (Or.inl rfl)]
  have hG1 : s1.gameHeap[g]? = some G := by rw [hgh]; simpa using hG
  refine ⟨SendMessage s1 S.conn
      "Game was terminated. Opponent probably disconnected from the server. Pick another game\n"
      GAME_TERMINATED, ?_, ?_⟩
  · simp [guess, disconnectPlayer, hP, hg, hs1, hG1, hS1]
  · simp [hgames, hpl, hsent]

/-- C10: for every game `G` that is the current game of the player `P` whose
guess step it is (the guesser), with setter `S`: when the receive of the
guess step fails, the step returns; the player registry has lost the entry of
the guesser's identifier and the game registry the entry of `G.ID`, and
neither gained one; exactly two messages are sent, the disconnect notice on
the guesser's own connection and a fixed game-terminated text to the setter;
and in the state that differs only in the secret word of the game (any word
`w` in its place) the step returns as well with the same messages sent. -/
theorem guess_receive_failure_hides_word (EqualFold : String → String → Bool) (s : Server)
    (p g : Nat) (P S : Player) (G : Game) (w : String)
    (hP : s.playerHeap[p]? = some P) (hg : P.currentGame = some g)
    (hG : s.gameHeap[g]? = some G) (hS : s.playerHeap[G.Player]? = some S) :
    ∃ s1 s2, guess EqualFold s p none = some s1
      ∧ guess EqualFold (withSecretWord s g w) p none = some s2
      ∧ s2.sent = s1.sent
      ∧ s1.sent = s.sent ++
          [{ conn := P.conn, Data := "", Type_ := DISCONNECT },
           { conn := S.conn,
             Data :=
               "Game was terminated. Opponent probably disconnected from the server. Pick another game\n",
             Type_ := GAME_TERMINATED }]
      ∧ mapGet s1.Players P.ID = none
      ∧ (∀ e ∈ s1.Players, e ∈ s.Players ∧ e.1 ≠ P.ID)
      ∧ ((∀ e ∈ s.Players, e.2 = p → e.1 = P.ID) → ∀ e ∈ s1.Players, e.2 ≠ p)
      ∧ mapGet s1.Games G.ID = none
      ∧ (∀ e ∈ s1.Games, e ∈ s.Games ∧ e.1 ≠ G.ID)
      ∧ ((∀ e ∈ s.Games, e.2 = g → e.1 = G.ID) → ∀ e ∈ s1.Games, e.2 ≠ g) := by
  obtain ⟨s1, h1, hpl1, hgames1, hsent1⟩ := guess_none_spec EqualFold s p g P S G hP hg hG hS
  obtain ⟨s2, h2, _, _, hsent2⟩ :=
    guess_none_spec EqualFold (withSecretWord s g w) p g P S { G with SecretWord := w }
      (by simpa using hP) hg (withSecretWord_get s g w G hG) (by simpa using hS)
  refine ⟨s1, s2, h1, h2, ?_, hsent1, ?_, ?_, ?_, ?_, ?_, ?_⟩
  · rw [hsent1, hsent2]; simp
  · rw [hpl1]; exact mapGet_mapDelete_self _ _
  · intro e he; rw [hpl1] at he; exact (mem_mapDelete _ _ _).mp he
  · intro hkey; rw [hpl1]; exact mapDelete_removed _ _ _ hkey
  · rw [hgames1]; exact mapGet_mapDelete_self _ _
  · intro e he; rw [hgames1] at he; exact (mem_mapDelete _ _ _).mp he
  · intro hkey; rw [hgames1]; exact mapDelete_removed _ _ _ hkey

theorem guess_receive_failure_hides_word_witness :
    ∃ s1 s2, guess asciiEqualFold exampleGame 1 none = some s1
      ∧ guess asciiEqualFold (withSecretWord exampleGame 0 "banana") 1 none = some s2
      ∧ s2.sent = s1.sent
      ∧ s1.sent = exampleGame.sent ++
          [{ conn := 11, Data := "", Type_ := DISCONNECT },
           { conn := 10,
             Data :=
               "Game was terminated. Opponent probably disconnected from the server. Pick another game\n",
             Type_ := GAME_TERMINATED }]
      ∧ mapGet s1.Players "0000000b" = none
      ∧ (∀ e ∈ s1.Players, e ∈ exampleGame.Players ∧ e.1 ≠ "0000000b")
      ∧ ((∀ e ∈ exampleGame.Players, e.2 = 1 → e.1 = "0000000b") → ∀ e ∈ s1.Players, e.2 ≠ 1)
      ∧ mapGet s1.Games "0000000c" = none
      ∧ (∀ e ∈ s1.Games, e ∈ exampleGame.Games ∧ e.1 ≠ "0000000c")
      ∧ ((∀ e ∈ exampleGame.Games, e.2 = 0 → e.1 = "0000000c") → ∀ e ∈ s1.Games, e.2 ≠ 0) :=
  guess_receive_failure_hides_word asciiEqualFold exampleGame 1 0
    { ID := "0000000b", conn := 11, state := PlayerState.Guessing, currentGame := some 0 }
    { ID := "0000000a", conn := 10, state := PlayerState.Playing, currentGame := some 0 }
    { ID := "0000000c", Player := 0, Opponent := 1, SecretWord := "apple" } "banana"
    (by rfl) (by rfl) (by rfl) (by rfl)

/-! ### Give-up -/

/-- C8, as amended: for every game `G` (the current game of the guesser `P`,
whose setter is `S`), when the guesser sends a give-up message the guess step
returns; exactly two messages are sent, a give-up-typed notice to the setter
and a message containing the secret word to the guesser; the game registry
has lost the entry of `G.ID` and gained none; both players end in state
Authenticated with no active game; and each of the two that is stored in the
player registry is returned by `getFreePlayers` for every requester whose
identifier differs from its own. -/
theorem guess_give_up (EqualFold : String → String → Bool) (s : Server)
    (p g : Nat) (P S : Player) (G : Game) (payload : String)
    (hP : s.playerHeap[p]? = some P) (hg : P.currentGame = some g)
    (hG : s.gameHeap[g]? = some G) (hguesser : G.Opponent = p)
    (hS : s.playerHeap[G.Player]? = some S) :
    ∃ s', guess EqualFold s p (some { Type_ := GIVE_UP, Data := payload }) = some s'
      ∧ s'.sent = s.sent ++
          [{ conn := S.conn, Data := "Oponent gave up. You can pick another game now",
             Type_ := GIVE_UP },
           { conn := P.conn,
             Data := "You gave up. The secret word was: " ++ G.SecretWord ++
               ". You can start another game now",
             Type_ := MESSAGE }]
      ∧ mapGet s'.Games G.ID = none
      ∧ (∀ e ∈ s'.Games, e ∈ s.Games ∧ e.1 ≠ G.ID)
      ∧ ((∀ e ∈ s.Games, e.2 = g → e.1 = G.ID) → ∀ e ∈ s'.Games, e.2 ≠ g)
      ∧ s'.playerHeap[p]? =
          some { P with state := PlayerState.Authenticated, currentGame := none }
      ∧ s'.playerHeap[G.Player]? =
          some { S with state := PlayerState.Authenticated, currentGame := none }
      ∧ (∀ x X e, s'.playerHeap[x]? = some X → e ∈ s.Players →
          ((e.2 = p ∧ X.ID ≠ P.ID) ∨ (e.2 = G.Player ∧ X.ID ≠ S.ID)) →
          e ∈ getFreePlayers s' x) := by
  have hO : s.playerHeap[G.Opponent]? = some P := by rw [hguesser]; exact hP
  obtain ⟨s', hs', hgames, hpl, _, hsent, _, _, hplayers⟩ :=
    terminateGame_spec
      (SendMessage
        (SendMessage s S.conn "Oponent gave up. You can pick another game now" GIVE_UP)
        P.conn
        ("You gave up. The secret word was: " ++ G.SecretWord ++
          ". You can start another game now") MESSAGE) g G (by simpa using hG)
  have hp' : s'.playerHeap[p]? =
      some { P with state := PlayerState.Authenticated, currentGame := none } := by
    rw [hplayers p]
    simp [hP, restoredPlayer_of_mem G p P (Or.inr hguesser.symm)]
  have hS' : s'.playerHeap[G.Player]? =
      some { S with state := PlayerState.Authenticated, currentGame := none } := by
    rw [hplayers G.Player]
    simp [hS, restoredPlayer_of_mem G G.Player S (Or.inl rfl)]
  refine ⟨s', ?_, ?_, ?_, ?_, ?_, hp', hS', ?_⟩
  · simp [guess, hP, hg, hG, hO, hS, GAME_TERMINATED, GIVE_UP]
    simpa [GIVE_UP, MESSAGE] using hs'
  · rw [hsent]; simp
  · rw [hgames]; exact mapGet_mapDelete_self _ _
  · intro e he
    rw [hgames] at he
    exact (mem_mapDelete _ _ _).mp he
  · intro hkey
    rw [hgames]
    exact mapDelete_removed _ _ _ hkey
  · intro x X e hX he hcase
    have hmem : e ∈ s'.Players := by rw [hpl]; simpa using he
    simp only [getFreePlayers, List.mem_filter]
    refine ⟨hmem, ?_⟩
    rcases hcase with ⟨h1, h2⟩ | ⟨h1, h2⟩
    · simp [isFree, h1, hp', hX, h2]
    · simp [isFree, h1, hS', hX, h2]

theorem guess_give_up_witness :
    ∃ s', guess asciiEqualFold exampleGame 1 (some { Type_ := GIVE_UP, Data := "" }) = some s'
      ∧ s'.sent = exampleGame.sent ++
          [{ conn := 10, Data := "Oponent gave up. You can pick another game now",
             Type_ := GIVE_UP },
           { conn := 11,
             Data := "You gave up. The secret word was: " ++ "apple" ++
               ". You can start another game now",
             Type_ := MESSAGE }]
      ∧ mapGet s'.Games "0000000c" = none
      ∧ (∀ e ∈ s'.Games, e ∈ exampleGame.Games ∧ e.1 ≠ "0000000c")
      ∧ ((∀ e ∈ exampleGame.Games, e.2 = 0 → e.1 = "0000000c") → ∀ e ∈ s'.Games, e.2 ≠ 0)
      ∧ s'.playerHeap[1]? =
          some { ID := "0000000b", conn := 11, state := PlayerState.Authenticated,
                 currentGame := none }
      ∧ s'.playerHeap[0]? =
          some { ID := "0000000a", conn := 10, state := PlayerState.Authenticated,
                 currentGame := none }
      ∧ (∀ x X e, s'.playerHeap[x]? = some X → e ∈ exampleGame.Players →
          ((e.2 = 1 ∧ X.ID ≠ "0000000b") ∨ (e.2 = 0 ∧ X.ID ≠ "0000000a")) →
          e ∈ getFreePlayers s' x) :=
  guess_give_up asciiEqualFold exampleGame 1 0
    { ID := "0000000b", conn := 11, state := PlayerState.Guessing, currentGame := some 0 }
    { ID := "0000000a", conn := 10, state := PlayerState.Playing, currentGame := some 0 }
    { ID := "0000000c", Player := 0, Opponent := 1, SecretWord := "apple" } ""
    (by rfl) (by rfl) (by rfl) (by rfl) (by rfl)

/-- C8 fails as stated, with no request after a disconnect involved: the two
runs differ from a normal session only in that `generateId` returns
`0000000a` twice. After `setterIdCollisionTrace` the setter (player 0) is in
an active game but its registry entry was replaced by player 2; after the
guesser (player 1) gives up, the setter is Authenticated with no active game
and yet is not returned by `getFreePlayers` to the guesser. After
`requesterIdCollisionTrace` both players of the game are in the player
registry; after the guesser (player 2) gives up, the setter (player 1) is
registered, Authenticated with no active game, and yet is not returned by
`getFreePlayers` to player 0, another player, because their identifiers are
equal. -/
theorem give_up_colliding_identifier_not_free :
    (∃ sys s',
      run asciiEqualFold (newSystem "secret") setterIdCollisionTrace = some sys
      ∧ sys.server.Players = [("0000000b", 1), ("0000000a", 2)]
      ∧ sys.server.Games = [("0000000c", 0)]
      ∧ sys.server.gameHeap[0]? =
          some { ID := "0000000c", Player := 0, Opponent := 1, SecretWord := "apple" }
      ∧ sys.server.playerHeap[0]? =
          some { ID := "0000000a", conn := 10, state := PlayerState.Playing,
                 currentGame := some 0 }
      ∧ sys.server.playerHeap[1]? =
          some { ID := "0000000b", conn := 11, state := PlayerState.Guessing,
                 currentGame := some 0 }
      ∧ sys.pcs[1]? = some Pc.guess
      ∧ guess asciiEqualFold sys.server 1 (some { Type_ := GIVE_UP, Data := "" }) = some s'
      ∧ s'.playerHeap[0]? =
          some { ID := "0000000a", conn := 10, state := PlayerState.Authenticated,
                 currentGame := none }
      ∧ getFreePlayers s' 1 = [("0000000a", 2)])
    ∧ (∃ sys s',
      run asciiEqualFold (newSystem "secret") requesterIdCollisionTrace = some sys
      ∧ sys.server.Players = [("0000000a", 1), ("0000000b", 2)]
      ∧ sys.server.Games = [("0000000c", 0)]
      ∧ sys.server.gameHeap[0]? =
          some { ID := "0000000c", Player := 1, Opponent := 2, SecretWord := "apple" }
      ∧ sys.server.playerHeap[0]? =
          some { ID := "0000000a", conn := 10, state := PlayerState.Authenticated,
                 currentGame := none }
      ∧ sys.server.playerHeap[1]? =
          some { ID := "0000000a", conn := 11, state := PlayerState.Playing,
                 currentGame := some 0 }
      ∧ sys.server.playerHeap[2]? =
          some { ID := "0000000b", conn := 12, state := PlayerState.Guessing,
                 currentGame := some 0 }
      ∧ sys.pcs[2]? = some Pc.guess
      ∧ guess asciiEqualFold sys.server 2 (some { Type_ := GIVE_UP, Data := "" }) = some s'
      ∧ s'.Players = [("0000000a", 1), ("0000000b", 2)]
      ∧ s'.playerHeap[1]? =
          some { ID := "0000000a", conn := 11, state := PlayerState.Authenticated,
                 currentGame := none }
      ∧ getFreePlayers s' 0 = [("0000000b", 2)]) := by
  refine ⟨⟨_, _, rfl, ?_, ?_, ?_, ?_, ?_, ?_, rfl, ?_, ?_⟩,
    ⟨_, _, rfl, ?_, ?_, ?_, ?_, ?_, ?_, ?_, rfl, ?_, ?_, ?_⟩⟩ <;> decide

/-! ### The state invariant -/

theorem ServerInv_mono (A B : Nat → Prop) (s : Server) (hAB : ∀ i, B i → A i)
    (h : ServerInv A s) : ServerInv B s :=
  ⟨h.1, fun i P hP hB => h.2.1 i P hP (hAB i hB), h.2.2⟩

/-- A step that maps every player object by `f` keeps the invariant, when
`f` keeps `PlayerOk`, never sets the state back to `Connected`, gives no game
to a player of `A` that is not registered, and every registry entry it adds
refers to a player outside `A` whose state is not `Connected`. -/
theorem ServerInv_of_map (A : Nat → Prop) (s s' : Server) (f : Nat → Player → Player)
    (hheap : ∀ q, s'.playerHeap[q]? = (s.playerHeap[q]?).map (f q))
    (hreg : ∀ e ∈ s'.Players, e ∈ s.Players ∨
      (¬ A e.2 ∧ ∃ P, s'.playerHeap[e.2]? = some P ∧ P.state ≠ PlayerState.Connected))
    (hok : ∀ q P, s.playerHeap[q]? = some P → PlayerOk P → PlayerOk (f q P))
    (hconn : ∀ q P, P.state ≠ PlayerState.Connected → (f q P).state ≠ PlayerState.Connected)
    (hfree : ∀ q P, A q → (∀ e ∈ s.Players, e.2 ≠ q) → P.currentGame = none →
      (f q P).currentGame = none)
    (h : ServerInv A s) : ServerInv A s' := by
  obtain ⟨h1, h2, h3⟩ := h
  refine ⟨?_, ?_, ?_⟩
  · intro i P' hP'
    rw [hheap i] at hP'
    cases hP : s.playerHeap[i]? with
    | none => simp [hP] at hP'
    | some P =>
      have : f i P = P' := by simpa [hP] using hP'
      rw [← this]
      exact hok i P hP (h1 i P hP)
  · intro i P' hP' hA
    rw [hheap i] at hP'
    cases hP : s.playerHeap[i]? with
    | none => simp [hP] at hP'
    | some P =>
      have : f i P = P' := by simpa [hP] using hP'
      obtain ⟨hg, hu⟩ := h2 i P hP hA
      refine ⟨?_, ?_⟩
      · rw [← this]
        exact hfree i P hA hu hg
      · intro e he hei
        rcases hreg e he with hold | ⟨hnA, _⟩
        · exact hu e hold hei
        · exact hnA (by rw [hei]; exact hA)
  · intro e he
    rcases hreg e he with hold | ⟨_, hnew⟩
    · obtain ⟨P, hP, hst⟩ := h3 e hold
      refine ⟨f e.2 P, ?_, hconn e.2 P hst⟩
      rw [hheap e.2, hP]
      rfl
    · exact hnew

/-- A step that leaves the player objects alone and adds no registry entry
keeps the invariant. -/
theorem ServerInv_of_frame (A : Nat → Prop) (s s' : Server)
    (hheap : s'.playerHeap = s.playerHeap) (hreg : ∀ e ∈ s'.Players, e ∈ s.Players)
    (h : ServerInv A s) : ServerInv A s' := by
  refine ServerInv_of_map A s s' (fun _ P => P) ?_ (fun e he => Or.inl (hreg e he))
    (fun _ _ _ h => h) (fun _ _ h => h) (fun _ _ _ _ h => h) h
  intro q
  rw [hheap]
  cases s.playerHeap[q]? <;> rfl

theorem SendMessage_inv (A : Nat → Prop) (s : Server) (c : Nat) (m : String)
    (t : MessageType) (h : ServerInv A s) : ServerInv A (SendMessage s c m t) :=
  ServerInv_of_frame A s _ rfl (fun _ he => he) h

theorem disconnectPlayer_inv (A : Nat → Prop) (s s' : Server) (p : Nat)
    (h : ServerInv A s) (hs : disconnectPlayer s p = some s') : ServerInv A s' := by
  unfold disconnectPlayer at hs
  cases hP : s.playerHeap[p]? with
  | none => simp [hP] at hs
  | some P =>
    simp [hP] at hs
    subst hs
    exact ServerInv_of_frame A s _ rfl
      (fun e he => ((mem_mapDelete _ _ _).mp (by simpa using he)).1) h

theorem restoredPlayer_ok (G : Game) (q : Nat) (P : Player) (h : PlayerOk P) :
    PlayerOk (restoredPlayer G q P) := by
  unfold restoredPlayer
  split
  · simp [PlayerOk]
  · exact h

theorem startedPlayer_ok (a b g q : Nat) (P : Player) (h : PlayerOk P) :
    PlayerOk (startedPlayer a b g q P) := by
  unfold startedPlayer
  split
  · simp [PlayerOk]
  · split
    · simp [PlayerOk]
    · exact h

theorem terminateGame_inv (A : Nat → Prop) (s s' : Server) (game : Option Nat)
    (h : ServerInv A s) (hs : terminateGame s game = some s') : ServerInv A s' := by
  cases game with
  | none =>
    have : s = s' := by simpa [terminateGame] using hs
    rw [← this]; exact h
  | some g =>
    cases hG : s.gameHeap[g]? with
    | none => simp [terminateGame, hG] at hs
    | some G =>
      obtain ⟨s'', hs'', _, hpl, _, _, _, _, hplayers⟩ := terminateGame_spec s g G hG
      rw [hs] at hs''
      have heq : s' = s'' := Option.some.inj hs''
      subst heq
      refine ServerInv_of_map A s s' (restoredPlayer G) hplayers
        (fun e he => by rw [hpl] at he; exact Or.inl he)
        (fun q P _ hP => restoredPlayer_ok G q P hP) ?_ ?_ h
      · intro q P hst
        unfold restoredPlayer
        split
        · simp
        · exact hst
      · intro q P _ _ hg
        unfold restoredPlayer
        split
        · rfl
        · exact hg

theorem initializeGame_inv (A : Nat → Prop) (s s' : Server) (a b : Nat) (word id : String)
    (A' B' : Player) (hA : s.playerHeap[a]? = some A') (hB : s.playerHeap[b]? = some B')
    (ha : ¬ A a) (hb : ∃ e ∈ s.Players, e.2 = b)
    (h : ServerInv A s) (hs : initializeGame s a b word id = some s') : ServerInv A s' := by
  obtain ⟨s'', hs'', _, _, hpl, _, _, hplayers, _⟩ := initializeGame_spec s a b word id A' B' hA hB
  rw [hs] at hs''
  have heq : s' = s'' := Option.some.inj hs''
  subst heq
  refine ServerInv_of_map A s s' (startedPlayer a b s.gameHeap.length) hplayers
    (fun e he => by rw [hpl] at he; exact Or.inl he)
    (fun q P _ hP => startedPlayer_ok a b _ q P hP) ?_ ?_ h
  · intro q P hst
    unfold startedPlayer
    split
    · simp
    · split
      · simp
      · exact hst
  · intro q P hq hu hg
    have hqb : q ≠ b := by
      intro hqb
      obtain ⟨e, he, heb⟩ := hb
      exact hu e he (by rw [heb, hqb])
    have hqa : q ≠ a := by
      intro hqa
      exact ha (by rw [← hqa]; exact hq)
    simp [startedPlayer, hqb, hqa, hg]

theorem handleInitGame_inv (A : Nat → Prop) (s s' : Server) (p : Nat)
    (opponentId secretWord id : String) (hp : ¬ A p)
    (h : ServerInv A s) (hs : handleInitGame s p opponentId secretWord id = some s') :
    ServerInv A s' := by
  unfold handleInitGame at hs
  cases hP : s.playerHeap[p]? with
  | none => simp [hP] at hs
  | some P =>
    simp only [hP, Option.bind_eq_bind, Option.some_bind] at hs
    by_cases hid : opponentId = P.ID
    · simp [hid] at hs
      subst hs
      exact SendMessage_inv A s _ _ _ h
    · simp only [hid, if_false] at hs
      cases hget : mapGet (getFreePlayers s p) opponentId with
      | none =>
        simp [hget] at hs
        subst hs
        exact SendMessage_inv A s _ _ _ h
      | some o =>
        simp only [hget] at hs
        have hmem := mapGet_mem _ _ _ hget
        simp only [getFreePlayers, List.mem_filter] at hmem
        obtain ⟨Q, hQ, _⟩ := isFree_currentGame s p o hmem.2
        exact initializeGame_inv A s s' p o secretWord id P Q hP hQ hp
          ⟨(opponentId, o), hmem.1, rfl⟩ h hs

theorem pickOponentForPlayer_inv (A : Nat → Prop) (s s' : Server) (p : Nat)
    (recv : Option Message) (id : String) (hp : ¬ A p)
    (h : ServerInv A s) (hs : pickOponentForPlayer s p recv id = some s') :
    ServerInv A s' := by
  unfold pickOponentForPlayer at hs
  cases recv with
  | none => exact disconnectPlayer_inv A s s' p h hs
  | some msg =>
    simp only at hs
    split at hs
    · exact disconnectPlayer_inv A s s' p h hs
    · split at hs
      · unfold handleGetPlayersRequest at hs
        cases hP : s.playerHeap[p]? with
        | none => simp [hP] at hs
        | some P =>
          simp [hP] at hs
          subst hs
          exact SendMessage_inv A s _ _ _ h
      · split at hs
        · split at hs
          · exact handleInitGame_inv A s s' p _ _ id hp h hs
          · cases hP : s.playerHeap[p]? with
            | none => simp [hP] at hs
            | some P =>
              simp [hP] at hs
              subst hs
              exact SendMessage_inv A s _ _ _ h
        · split at hs
          · have : s = s' := Option.some.inj hs
            rw [← this]; exact h
          · cases hP : s.playerHeap[p]? with
            | none => simp [hP] at hs
            | some P =>
              simp [hP] at hs
              subst hs
              exact SendMessage_inv A s _ _ _ h

theorem play_inv (A : Nat → Prop) (s s' : Server) (p : Nat) (recv : Option Message)
    (h : ServerInv A s) (hs : play s p recv = some s') : ServerInv A s' := by
  unfold play at hs
  cases hP : s.playerHeap[p]? with
  | none => simp [hP] at hs
  | some P =>
    simp only [hP, Option.bind_eq_bind, Option.some_bind] at hs
    cases recv with
    | none =>
      simp only [Option.bind_eq_some] at hs
      obtain ⟨s1, hs1, P', _, s2, hs2, g, _, G, _, O, _, hs'⟩ := hs
      have h1 := disconnectPlayer_inv A s s1 p h hs1
      have h2 := terminateGame_inv A s1 s2 _ h1 hs2
      have : SendMessage s2 O.conn _ GAME_TERMINATED = s' := Option.some.inj hs'
      rw [← this]
      exact SendMessage_inv A s2 _ _ _ h2
    | some msg =>
      simp only at hs
      split at hs
      · have : s = s' := Option.some.inj hs
        rw [← this]; exact h
      · simp only [Option.bind_eq_bind, Option.bind_eq_some] at hs
        obtain ⟨g, _, G, _, O, _, hs'⟩ := hs
        have : SendMessage s O.conn msg.Data MESSAGE = s' := Option.some.inj hs'
        rw [← this]
        exact SendMessage_inv A s _ _ _ h

theorem guess_inv (EqualFold : String → String → Bool) (A : Nat → Prop) (s s' : Server)
    (p : Nat) (recv : Option Message)
    (h : ServerInv A s) (hs : guess EqualFold s p recv = some s') : ServerInv A s' := by
  unfold guess at hs
  cases hP : s.playerHeap[p]? with
  | none => simp [hP] at hs
  | some P =>
    simp only [hP, Option.bind_eq_bind, Option.some_bind] at hs
    cases recv with
    | none =>
      simp only [Option.bind_eq_some] at hs
      obtain ⟨s1, hs1, P', _, s2, hs2, g, _, G, _, S, _, hs'⟩ := hs
      have h1 := disconnectPlayer_inv A s s1 p h hs1
      have h2 := terminateGame_inv A s1 s2 _ h1 hs2
      have : SendMessage s2 S.conn _ GAME_TERMINATED = s' := Option.some.inj hs'
      rw [← this]
      exact SendMessage_inv A s2 _ _ _ h2
    | some msg =>
      simp only at hs
      split at hs
      · have : s = s' := Option.some.inj hs
        rw [← this]; exact h
      · split at hs
        · simp only [Option.bind_eq_bind, Option.bind_eq_some] at hs
          obtain ⟨g, _, G, _, S, _, O, _, hs'⟩ := hs
          exact terminateGame_inv A _ s' _
            (SendMessage_inv A _ _ _ _ (SendMessage_inv A s _ _ _ h)) hs'
        · simp only [Option.bind_eq_bind, Option.bind_eq_some] at hs
          obtain ⟨g, _, G, _, hs'⟩ := hs
          split at hs'
          · simp only [Option.bind_eq_bind, Option.bind_eq_some] at hs'
            obtain ⟨O, _, S, _, hs''⟩ := hs'
            exact terminateGame_inv A _ s' _
              (SendMessage_inv A _ _ _ _ (SendMessage_inv A s _ _ _ h)) hs''
          · simp only [Option.bind_eq_bind, Option.bind_eq_some] at hs'
            obtain ⟨O, _, S, _, hs''⟩ := hs'
            have : SendMessage (SendMessage s O.conn _ MESSAGE) S.conn _ MESSAGE = s' :=
              Option.some.inj hs''
            rw [← this]
            exact SendMessage_inv A _ _ _ _ (SendMessage_inv A s _ _ _ h)

theorem authenticatePlayer_inv (A : Nat → Prop) (s s' : Server) (p : Nat)
    (recv : Option Message) (id : String) (hp : ¬ A p)
    (hfree : ∀ P, s.playerHeap[p]? = some P → P.currentGame = none)
    (h : ServerInv A s) (hs : authenticatePlayer s p recv id = some s') :
    ServerInv A s' := by
  unfold authenticatePlayer at hs
  cases hP : s.playerHeap[p]? with
  | none => simp [hP] at hs
  | some P =>
    simp only [hP, Option.bind_eq_bind, Option.some_bind] at hs
    cases recv with
    | none =>
      exact disconnectPlayer_inv A _ s' p (SendMessage_inv A s _ _ _ h) hs
    | some msg =>
      simp only at hs
      split at hs
      · have hs' := Option.some.inj hs
        subst hs'
        refine ServerInv_of_map A s _
          (fun q Q => if q = p then
            { Q with state := PlayerState.Authenticated, ID := id } else Q)
          ?_ ?_ ?_ ?_ ?_ h
        · intro q
          by_cases hq : q = p
          · subst hq
            simp [hP]
          · have hq' : p ≠ q := fun h => hq h.symm
            simp only [storePlayers_playerHeap, modifyPlayer_get, hq', if_false,
              SendMessage_playerHeap, hq]
            cases s.playerHeap[q]? <;> rfl
        · intro e he
          simp only [storePlayers_Players, modifyPlayer_Players, SendMessage_Players] at he
          rcases (mem_mapSet _ _ _ _).mp he with hold | hnew
          · exact Or.inl hold.1
          · refine Or.inr ?_
            subst hnew
            refine ⟨hp, ?_⟩
            refine ⟨⟨id, P.conn, PlayerState.Authenticated, P.currentGame⟩, ?_, ?_⟩
            · simp [hP]
            · simp
        · intro q Q hQ hok
          by_cases hq : q = p
          · subst hq
            have hg := hfree Q hQ
            simp [PlayerOk, hg]
          · simp [hq, hok]
        · intro q Q hst
          by_cases hq : q = p
          · simp [hq]
          · simp [hq, hst]
        · intro q Q hq _ hg
          by_cases hqp : q = p
          · simp [hqp, hg]
          · simp [hqp, hg]
      · have hs' := Option.some.inj hs
        subst hs'
        exact ServerInv_of_frame A s _ rfl (fun _ he => he) h

theorem newSystem_inv (password : String) : SystemInv (newSystem password) := by
  refine ⟨?_, ?_, ?_⟩
  · intro i P hP; simp [newSystem, newServer] at hP
  · intro i P hP; simp [newSystem, newServer] at hP
  · intro e he; simp [newSystem, newServer] at he

theorem accept_inv (sys : System) (conn : Nat) (h : SystemInv sys) :
    SystemInv (accept sys conn) := by
  obtain ⟨h1, h2, h3⟩ := h
  have hvalid : ∀ e ∈ sys.server.Players, e.2 < sys.server.playerHeap.length := by
    intro e he
    obtain ⟨P, hP, _⟩ := h3 e he
    exact (List.getElem?_eq_some_iff.mp hP).1
  have hget : ∀ i P, (accept sys conn).server.playerHeap[i]? = some P →
      (i < sys.server.playerHeap.length ∧ sys.server.playerHeap[i]? = some P)
      ∨ (i = sys.server.playerHeap.length ∧
          P = { ID := "", conn := conn, state := PlayerState.Connected, currentGame := none }) := by
    intro i P hP
    simp only [accept] at hP
    by_cases hi : i < sys.server.playerHeap.length
    · rw [List.getElem?_append_left hi] at hP
      exact Or.inl ⟨hi, hP⟩
    · have hle : sys.server.playerHeap.length ≤ i := Nat.le_of_not_lt hi
      rw [List.getElem?_append_right hle] at hP
      have hlt := (List.getElem?_eq_some_iff.mp hP).1
      simp at hlt
      have hi0 : i = sys.server.playerHeap.length := by omega
      refine Or.inr ⟨hi0, ?_⟩
      subst hi0
      simpa using hP.symm
  refine ⟨?_, ?_, ?_⟩
  · intro i P hP
    rcases hget i P hP with ⟨_, hold⟩ | ⟨_, hnew⟩
    · exact h1 i P hold
    · subst hnew; simp [PlayerOk]
  · intro i P hP hA
    rcases hget i P hP with ⟨hi, hold⟩ | ⟨hi, hnew⟩
    · have hA' : sys.pcs[i]? = some Pc.authenticatePlayer := by
        simp only [accept] at hA
        by_cases hip : i < sys.pcs.length
        · rwa [List.getElem?_append_left hip] at hA
        · have hle : sys.pcs.length ≤ i := Nat.le_of_not_lt hip
          rw [List.getElem?_append_right hle] at hA
          have hlt := (List.getElem?_eq_some_iff.mp hA).1
          simp at hlt
          have h0 : i - sys.pcs.length = 0 := by omega
          rw [h0] at hA
          simp at hA
      exact h2 i P hold hA'
    · subst hnew
      refine ⟨rfl, ?_⟩
      intro e he hei
      have := hvalid e he
      simp only [accept] at he
      omega
  · intro e he
    obtain ⟨P, hP, hst⟩ := h3 e he
    refine ⟨P, ?_, hst⟩
    simp only [accept]
    rw [List.getElem?_append_left (hvalid e he)]
    exact hP

theorem dispatch_inv (sys sys' : System) (p : Nat) (h : SystemInv sys)
    (hs : dispatch sys p = some sys') : SystemInv sys' := by
  unfold dispatch at hs
  cases hpc : sys.pcs[p]? with
  | none => simp [hpc] at hs
  | some pc =>
    cases hP : sys.server.playerHeap[p]? with
    | none => simp [hpc, hP] at hs
    | some P =>
      simp only [hpc, hP, Option.bind_eq_bind, Option.some_bind] at hs
      split at hs
      · have hother : ∀ (X : Pc) (i : Nat), X ≠ Pc.authenticatePlayer →
            (sys.pcs.set p X)[i]? = some Pc.authenticatePlayer →
            sys.pcs[i]? = some Pc.authenticatePlayer := by
          intro X i hX hi
          rw [List.getElem?_set] at hi
          split at hi
          · split at hi
            · exact absurd (Option.some.inj hi) hX
            · exact absurd hi (by simp)
          · exact hi
        cases hst : P.state with
        | Connected =>
          simp only [hst] at hs
          have hs' := Option.some.inj hs
          subst hs'
          obtain ⟨h1, h2, h3⟩ := h
          refine ⟨h1, ?_, h3⟩
          intro i Q hQ hA
          by_cases hip : p = i
          · subst hip
            have hQP : Q = P := by
              simp only at hQ
              rw [hP] at hQ
              exact (Option.some.inj hQ).symm
            subst hQP
            refine ⟨?_, ?_⟩
            · have hok := h1 p Q hP
              by_contra hne
              rcases hok.mp hne with hpl | hgu
              · rw [hst] at hpl; exact absurd hpl (by simp)
              · rw [hst] at hgu; exact absurd hgu (by simp)
            · intro e he hep
              obtain ⟨Q', hQ', hst'⟩ := h3 e he
              rw [hep, hP] at hQ'
              have : Q = Q' := Option.some.inj hQ'
              subst this
              exact hst' hst
          · have hA' : sys.pcs[i]? = some Pc.authenticatePlayer := by
              simp only at hA
              rw [List.getElem?_set] at hA
              simpa [hip] using hA
            exact h2 i Q hQ hA'
        | Authenticated =>
          simp only [hst] at hs
          have hs' := Option.some.inj hs
          subst hs'
          exact ServerInv_mono _ _ _ (fun i hi => hother _ i (by simp) hi) h
        | Playing =>
          simp only [hst] at hs
          have hs' := Option.some.inj hs
          subst hs'
          exact ServerInv_mono _ _ _ (fun i hi => hother _ i (by simp) hi) h
        | Guessing =>
          simp only [hst] at hs
          have hs' := Option.some.inj hs
          subst hs'
          exact ServerInv_mono _ _ _ (fun i hi => hother _ i (by simp) hi) h
        | Error =>
          simp only [hst] at hs
          have hs' := Option.some.inj hs
          subst hs'
          exact ServerInv_mono _ _ _ (fun i hi => hother _ i (by simp) hi)
            (ServerInv_of_frame _ sys.server _ rfl (fun _ he => he) h)
      · exact absurd hs (by simp)

theorem receive_inv (EqualFold : String → String → Bool) (sys sys' : System) (p : Nat)
    (recv : Option Message) (id : String) (h : SystemInv sys)
    (hs : receive EqualFold sys p recv id = some sys') : SystemInv sys' := by
  unfold receive at hs
  cases hpc : sys.pcs[p]? with
  | none => simp [hpc] at hs
  | some pc =>
    cases hP : sys.server.playerHeap[p]? with
    | none => simp [hpc, hP] at hs
    | some P =>
      simp only [hpc, hP, Option.bind_eq_bind, Option.some_bind] at hs
      split at hs
      · exact absurd hs (by simp)
      · simp only [Option.bind_eq_bind, Option.bind_eq_some, Option.pure_def] at hs
        obtain ⟨s', hstep, hs'⟩ := hs
        have hsys : sys' = { server := s', pcs := sys.pcs.set p Pc.loop } :=
          (Option.some.inj hs').symm
        subst hsys
        have hB : ServerInv (fun i => i ≠ p ∧ sys.pcs[i]? = some Pc.authenticatePlayer)
            sys.server := ServerInv_mono _ _ _ (fun i hi => hi.2) h
        have hnp : ¬ (p ≠ p ∧ sys.pcs[p]? = some Pc.authenticatePlayer) := fun hh => hh.1 rfl
        have hB' : ServerInv (fun i => i ≠ p ∧ sys.pcs[i]? = some Pc.authenticatePlayer) s' := by
          cases pc with
          | loop => exact absurd hstep (by simp [stepMethod])
          | returned => exact absurd hstep (by simp [stepMethod])
          | authenticatePlayer =>
            refine authenticatePlayer_inv _ sys.server s' p recv id hnp ?_ hB hstep
            intro Q hQ
            exact (h.2.1 p Q hQ hpc).1
          | pickOponentForPlayer =>
            exact pickOponentForPlayer_inv _ sys.server s' p recv id hnp hB hstep
          | play => exact play_inv _ sys.server s' p recv hB hstep
          | guess => exact guess_inv EqualFold _ sys.server s' p recv hB hstep
        refine ServerInv_mono _ _ _ ?_ hB'
        intro i hi
        simp only at hi
        rw [List.getElem?_set] at hi
        split at hi
        · split at hi
          · exact absurd (Option.some.inj hi) (by simp)
          · exact absurd hi (by simp)
        · rename_i hne
          exact ⟨fun h => hne h.symm, hi⟩

theorem step_inv (EqualFold : String → String → Bool) (sys sys' : System) (e : Event)
    (h : SystemInv sys) (hs : step EqualFold sys e = some sys') : SystemInv sys' := by
  cases e with
  | accept conn =>
    have : accept sys conn = sys' := Option.some.inj hs
    rw [← this]
    exact accept_inv sys conn h
  | dispatch p => exact dispatch_inv sys sys' p h hs
  | receive p recv id => exact receive_inv EqualFold sys sys' p recv id h hs

theorem Reachable_inv (EqualFold : String → String → Bool) (password : String) (sys : System)
    (h : Reachable EqualFold password sys) : SystemInv sys := by
  induction h with
  | init => exact newSystem_inv password
  | step sys sys' e _ hs ih => exact step_inv EqualFold sys sys' e ih hs

theorem Reachable_run (EqualFold : String → String → Bool) (password : String)
    (es : List Event) (sys sys' : System) (h : Reachable EqualFold password sys)
    (hrun : run EqualFold sys es = some sys') : Reachable EqualFold password sys' := by
  induction es generalizing sys with
  | nil =>
    have : sys = sys' := Option.some.inj hrun
    rw [← this]; exact h
  | cons e es ih =>
    simp only [run, Option.bind_eq_some] at hrun
    obtain ⟨sys1, h1, h2⟩ := hrun
    exact ih sys1 (Reachable.step sys sys1 e h h1) h2

/-- C3: in every system state reachable from the empty server by accepting
connections and running the sessions (`handlePlayer` dispatching on the
player state to `authenticatePlayer`, `pickOponentForPlayer`, `play` or
`guess`, with any received message or receive failure), every player object
satisfies `currentGame != nil` if and only if its state is `Playing` or
`Guessing`. -/
theorem state_invariant (EqualFold : String → String → Bool) (password : String)
    (sys : System) (h : Reachable EqualFold password sys) (i : Nat) (P : Player)
    (hP : sys.server.playerHeap[i]? = some P) :
    P.currentGame ≠ none ↔ (P.state = PlayerState.Playing ∨ P.state = PlayerState.Guessing) :=
  (Reachable_inv EqualFold password sys h).1 i P hP

theorem state_invariant_witness :
    Reachable asciiEqualFold "secret"
        ((run asciiEqualFold (newSystem "secret") deregisteredSetterTrace).getD
          (newSystem "secret"))
      ∧ ((run asciiEqualFold (newSystem "secret") deregisteredSetterTrace).getD
          (newSystem "secret")).server.playerHeap[1]? =
          some { ID := "0000000b", conn := 11, state := PlayerState.Guessing,
                 currentGame := some 0 }
      ∧ ((some 0 : Option Nat) ≠ none ↔
          (PlayerState.Guessing = PlayerState.Playing
            ∨ PlayerState.Guessing = PlayerState.Guessing)) :=
  have hrun : run asciiEqualFold (newSystem "secret") deregisteredSetterTrace
      = some ((run asciiEqualFold (newSystem "secret") deregisteredSetterTrace).getD
          (newSystem "secret")) := by decide
  have hreach := Reachable_run asciiEqualFold "secret" deregisteredSetterTrace
    (newSystem "secret") _ Reachable.init hrun
  ⟨hreach, by decide,
    state_invariant asciiEqualFold "secret" _ hreach 1
      { ID := "0000000b", conn := 11, state := PlayerState.Guessing, currentGame := some 0 }
      (by decide)⟩

/-! ### `terminateGame` -/

theorem find?_filter_eq {α : Type} (l : List α) (p q : α → Bool)
    (h : ∀ x, q x = true → p x = true) : (l.filter p).find? q = l.find? q := by
  induction l with
  | nil => rfl
  | cons x xs ih =>
    by_cases hp : p x = true
    · rw [List.filter_cons_of_pos hp]
      by_cases hq : q x = true
      · rw [List.find?_cons_of_pos _ hq, List.find?_cons_of_pos _ hq]
      · rw [List.find?_cons_of_neg _ hq, List.find?_cons_of_neg _ hq, ih]
    · have hq : ¬ q x = true := fun hq => hp (h x hq)
      rw [List.filter_cons_of_neg hp, List.find?_cons_of_neg _ hq, ih]

theorem mapGet_mapDelete_ne (m : List (String × Nat)) (k k' : String) (h : k' ≠ k) :
    mapGet (mapDelete m k) k' = mapGet m k' := by
  unfold mapGet mapDelete
  rw [find?_filter_eq]
  intro x hx
  have hx' : x.1 = k' := by simpa using hx
  simpa [hx'] using h

/-- C11, as amended: `terminateGame` is a no-op on a nil game reference; on
a game object `G` it returns, and afterwards `G.Player` and `G.Opponent` have
state Authenticated and no active game, the game registry has no entry for
`G.ID`, every entry under another identifier is unchanged, and every other
player object, the player registry, the game objects, the message log and
the closed connections are unchanged. -/
theorem terminateGame_effect (s : Server) (g : Nat) (G : Game)
    (hG : s.gameHeap[g]? = some G) :
    terminateGame s none = some s
      ∧ ∃ s', terminateGame s (some g) = some s'
        ∧ (∀ P, s.playerHeap[G.Player]? = some P → s'.playerHeap[G.Player]? =
            some { P with state := PlayerState.Authenticated, currentGame := none })
        ∧ (∀ P, s.playerHeap[G.Opponent]? = some P → s'.playerHeap[G.Opponent]? =
            some { P with state := PlayerState.Authenticated, currentGame := none })
        ∧ mapGet s'.Games G.ID = none
        ∧ s'.Games = s.Games.filter (fun e => decide (e.1 ≠ G.ID))
        ∧ (∀ k, k ≠ G.ID → mapGet s'.Games k = mapGet s.Games k)
        ∧ (∀ q, q ≠ G.Player → q ≠ G.Opponent → s'.playerHeap[q]? = s.playerHeap[q]?)
        ∧ s'.Players = s.Players
        ∧ s'.gameHeap = s.gameHeap
        ∧ s'.sent = s.sent
        ∧ s'.closed = s.closed := by
  refine ⟨rfl, ?_⟩
  obtain ⟨s', hs', hgames, hpl, hgh, hsent, hclosed, _, hplayers⟩ := terminateGame_spec s g G hG
  refine ⟨s', hs', ?_, ?_, ?_, ?_, ?_, ?_, hpl, hgh, hsent, hclosed⟩
  · intro P hP
    rw [hplayers G.Player, hP]
    simp [restoredPlayer_of_mem G G.Player P (Or.inl rfl)]
  · intro P hP
    rw [hplayers G.Opponent, hP]
    simp [restoredPlayer_of_mem G G.Opponent P (Or.inr rfl)]
  · rw [hgames]; exact mapGet_mapDelete_self _ _
  · rw [hgames]; rfl
  · intro k hk
    rw [hgames]; exact mapGet_mapDelete_ne _ _ _ hk
  · intro q h1 h2
    rw [hplayers q]
    cases s.playerHeap[q]? with
    | none => rfl
    | some Q => simp [restoredPlayer, h1, h2]

theorem terminateGame_effect_witness :
    terminateGame exampleGame none = some exampleGame
      ∧ ∃ s', terminateGame exampleGame (some 0) = some s'
        ∧ (∀ P, exampleGame.playerHeap[0]? = some P → s'.playerHeap[0]? =
            some { P with state := PlayerState.Authenticated, currentGame := none })
        ∧ (∀ P, exampleGame.playerHeap[1]? = some P → s'.playerHeap[1]? =
            some { P with state := PlayerState.Authenticated, currentGame := none })
        ∧ mapGet s'.Games "0000000c" = none
        ∧ s'.Games = exampleGame.Games.filter (fun e => decide (e.1 ≠ "0000000c"))
        ∧ (∀ k, k ≠ "0000000c" → mapGet s'.Games k = mapGet exampleGame.Games k)
        ∧ (∀ q, q ≠ 0 → q ≠ 1 → s'.playerHeap[q]? = exampleGame.playerHeap[q]?)
        ∧ s'.Players = exampleGame.Players
        ∧ s'.gameHeap = exampleGame.gameHeap
        ∧ s'.sent = exampleGame.sent
        ∧ s'.closed = exampleGame.closed :=
  terminateGame_effect exampleGame 0
    { ID := "0000000c", Player := 0, Opponent := 1, SecretWord := "apple" } (by rfl)

/-- C11 fails as stated: in the state reached by `gameIdCollisionTrace` the
first game (its object at address 0, setter player 0, guesser player 1) is
not stored in the game registry, which is empty, and yet `terminateGame` on
it is not a no-op: it puts both of its players back to Authenticated with no
active game. -/
theorem terminateGame_unregistered_game_not_noop :
    ∃ sys s',
      run asciiEqualFold (newSystem "secret") gameIdCollisionTrace = some sys
      ∧ sys.server.Games = []
      ∧ sys.server.gameHeap[0]? =
          some { ID := "000000aa", Player := 0, Opponent := 1, SecretWord := "apple" }
      ∧ sys.server.playerHeap[0]? =
          some { ID := "0000000a", conn := 10, state := PlayerState.Playing,
                 currentGame := some 0 }
      ∧ terminateGame sys.server (some 0) = some s'
      ∧ s'.playerHeap[0]? =
          some { ID := "0000000a", conn := 10, state := PlayerState.Authenticated,
                 currentGame := none }
      ∧ s' ≠ sys.server := by
  refine ⟨_, _, rfl, ?_, ?_, ?_, rfl, ?_, ?_⟩ <;> decide

/-! ### Authentication -/

theorem authenticatePlayer_success_spec (s : Server) (p : Nat) (P : Player) (msg : Message)
    (id : String) (hP : s.playerHeap[p]? = some P) (hpw : msg.Data = s.Password) :
    ∃ s', authenticatePlayer s p (some msg) id = some s'
      ∧ s'.playerHeap[p]? =
          some { ID := id, conn := P.conn, state := PlayerState.Authenticated,
                 currentGame := P.currentGame }
      ∧ (∀ q, q ≠ p → s'.playerHeap[q]? = s.playerHeap[q]?)
      ∧ s'.Players = mapSet s.Players id p
      ∧ s'.Games = s.Games
      ∧ s'.gameHeap = s.gameHeap
      ∧ s'.closed = s.closed
      ∧ s'.sent = s.sent ++
          [{ conn := P.conn, Data := "Enter secret Password!", Type_ := MESSAGE },
           { conn := P.conn, Data := "Correct password! Your ID is: " ++ id ++ "\n",
             Type_ := MESSAGE }] := by
  refine ⟨storePlayers
    (modifyPlayer
      (modifyPlayer
        (SendMessage (SendMessage s P.conn "Enter secret Password!" MESSAGE) P.conn
          ("Correct password! Your ID is: " ++ id ++ "\n") MESSAGE)
        p (fun P => { P with state := PlayerState.Authenticated }))
      p (fun P => { P with ID := id })) id p, ?_, ?_, ?_, ?_, ?_, ?_, ?_, ?_⟩
  · simp [authenticatePlayer, hP, hpw]
  · simp [hP]
  · intro q hq
    have hq' : p ≠ q := fun h => hq h.symm
    simp [modifyPlayer_get, hq']
  · simp
  · simp
  · simp
  · simp
  · simp

/-- C12: in every reachable state, for a player `P` in state Connected whose
received message has a payload equal to the server's password, the
authenticate step returns; afterwards the player object carries the
identifier `id` that `generateId` returned, is in state Authenticated and has
no active game; the player registry maps `id` to this player; and the step
has sent the player two messages, the password prompt and a message made of
a fixed text and the identifier. -/
theorem authenticatePlayer_correct_password (EqualFold : String → String → Bool)
    (password : String) (sys : System) (h : Reachable EqualFold password sys)
    (p : Nat) (P : Player) (msg : Message) (id : String)
    (hP : sys.server.playerHeap[p]? = some P) (hst : P.state = PlayerState.Connected)
    (hpw : msg.Data = sys.server.Password) :
    ∃ s', authenticatePlayer sys.server p (some msg) id = some s'
      ∧ s'.playerHeap[p]? =
          some { ID := id, conn := P.conn, state := PlayerState.Authenticated,
                 currentGame := none }
      ∧ mapGet s'.Players id = some p
      ∧ s'.sent = sys.server.sent ++
          [{ conn := P.conn, Data := "Enter secret Password!", Type_ := MESSAGE },
           { conn := P.conn, Data := "Correct password! Your ID is: " ++ id ++ "\n",
             Type_ := MESSAGE }] := by
  have hok : PlayerOk P := (Reachable_inv EqualFold password sys h).1 p P hP
  have hg : P.currentGame = none := by
    by_contra hne
    rcases hok.mp hne with h1 | h1
    · rw [hst] at h1; exact absurd h1 (by simp)
    · rw [hst] at h1; exact absurd h1 (by simp)
  obtain ⟨s', hs', hheap, _, hpl, _, _, _, hsent⟩ :=
    authenticatePlayer_success_spec sys.server p P msg id hP hpw
  refine ⟨s', hs', ?_, ?_, hsent⟩
  · rw [hheap, hg]
  · rw [hpl]; exact mapGet_mapSet_self _ _ _

theorem authenticatePlayer_correct_password_witness :
    ∃ s', authenticatePlayer
          ((run asciiEqualFold (newSystem "secret") connectedTrace).getD
            (newSystem "secret")).server 0
          (some { Type_ := MESSAGE, Data := "secret" }) "0000000a" = some s'
      ∧ s'.playerHeap[0]? =
          some { ID := "0000000a", conn := 10, state := PlayerState.Authenticated,
                 currentGame := none }
      ∧ mapGet s'.Players "0000000a" = some 0
      ∧ s'.sent =
          ((run asciiEqualFold (newSystem "secret") connectedTrace).getD
            (newSystem "secret")).server.sent ++
          [{ conn := 10, Data := "Enter secret Password!", Type_ := MESSAGE },
           { conn := 10, Data := "Correct password! Your ID is: " ++ "0000000a" ++ "\n",
             Type_ := MESSAGE }] :=
  authenticatePlayer_correct_password asciiEqualFold "secret" _
    (Reachable_run asciiEqualFold "secret" connectedTrace (newSystem "secret") _
      Reachable.init (by decide))
    0 { ID := "", conn := 10, state := PlayerState.Connected, currentGame := none }
    { Type_ := MESSAGE, Data := "secret" } "0000000a" (by decide) (by decide) (by decide)

/-! ### The state `Error` is never assigned -/

theorem StateStep_refl (s : Server) : StateStep s s :=
  fun _ P' hP' => ⟨P', hP', Or.inl rfl⟩

theorem StateStep_trans (s s' s'' : Server) (h1 : StateStep s s') (h2 : StateStep s' s'') :
    StateStep s s'' := by
  intro q P'' hP''
  obtain ⟨P', hP', h'⟩ := h2 q P'' hP''
  obtain ⟨P, hP, h⟩ := h1 q P' hP'
  refine ⟨P, hP, ?_⟩
  rcases h' with h' | h' | h' | h'
  · rw [h']; exact h
  · exact Or.inr (Or.inl h')
  · exact Or.inr (Or.inr (Or.inl h'))
  · exact Or.inr (Or.inr (Or.inr h'))

theorem StateStep_of_heap_eq (s s' : Server) (h : s'.playerHeap = s.playerHeap) :
    StateStep s s' := by
  intro q P' hP'
  rw [h] at hP'
  exact ⟨P', hP', Or.inl rfl⟩

theorem StateStep_of_map (s s' : Server) (f : Nat → Player → Player)
    (hheap : ∀ q, s'.playerHeap[q]? = (s.playerHeap[q]?).map (f q))
    (hf : ∀ q P, (f q P).state = P.state ∨ (f q P).state = PlayerState.Authenticated
      ∨ (f q P).state = PlayerState.Playing ∨ (f q P).state = PlayerState.Guessing) :
    StateStep s s' := by
  intro q P' hP'
  rw [hheap q] at hP'
  cases hP : s.playerHeap[q]? with
  | none => simp [hP] at hP'
  | some P =>
    have : f q P = P' := by simpa [hP] using hP'
    rw [← this]
    exact ⟨P, rfl, hf q P⟩

theorem disconnectPlayer_StateStep (s s' : Server) (p : Nat)
    (hs : disconnectPlayer s p = some s') : StateStep s s' := by
  unfold disconnectPlayer at hs
  cases hP : s.playerHeap[p]? with
  | none => simp [hP] at hs
  | some P =>
    simp [hP] at hs
    subst hs
    exact StateStep_of_heap_eq _ _ rfl

theorem terminateGame_StateStep (s s' : Server) (game : Option Nat)
    (hs : terminateGame s game = some s') : StateStep s s' := by
  cases game with
  | none =>
    have : s = s' := by simpa [terminateGame] using hs
    rw [← this]; exact StateStep_refl s
  | some g =>
    cases hG : s.gameHeap[g]? with
    | none => simp [terminateGame, hG] at hs
    | some G =>
      obtain ⟨s'', hs'', _, _, _, _, _, _, hplayers⟩ := terminateGame_spec s g G hG
      rw [hs] at hs''
      have heq : s' = s'' := Option.some.inj hs''
      subst heq
      refine StateStep_of_map s s' (restoredPlayer G) hplayers ?_
      intro q P
      unfold restoredPlayer
      split
      · exact Or.inr (Or.inl rfl)
      · exact Or.inl rfl

theorem initializeGame_StateStep (s s' : Server) (a b : Nat) (word id : String)
    (A B : Player) (hA : s.playerHeap[a]? = some A) (hB : s.playerHeap[b]? = some B)
    (hs : initializeGame s a b word id = some s') : StateStep s s' := by
  obtain ⟨s'', hs'', _, _, _, _, _, hplayers, _⟩ := initializeGame_spec s a b word id A B hA hB
  rw [hs] at hs''
  have heq : s' = s'' := Option.some.inj hs''
  subst heq
  refine StateStep_of_map s s' (startedPlayer a b s.gameHeap.length) hplayers ?_
  intro q P
  unfold startedPlayer
  split
  · exact Or.inr (Or.inr (Or.inr rfl))
  · split
    · exact Or.inr (Or.inr (Or.inl rfl))
    · exact Or.inl rfl

theorem handleInitGame_StateStep (s s' : Server) (p : Nat)
    (opponentId secretWord id : String)
    (hs : handleInitGame s p opponentId secretWord id = some s') : StateStep s s' := by
  unfold handleInitGame at hs
  cases hP : s.playerHeap[p]? with
  | none => simp [hP] at hs
  | some P =>
    simp only [hP, Option.bind_eq_bind, Option.some_bind] at hs
    by_cases hid : opponentId = P.ID
    · simp [hid] at hs
      subst hs
      exact StateStep_of_heap_eq _ _ rfl
    · simp only [hid, if_false] at hs
      cases hget : mapGet (getFreePlayers s p) opponentId with
      | none =>
        simp [hget] at hs
        subst hs
        exact StateStep_of_heap_eq _ _ rfl
      | some o =>
        simp only [hget] at hs
        have hmem := mapGet_mem _ _ _ hget
        simp only [getFreePlayers, List.mem_filter] at hmem
        obtain ⟨Q, hQ, _⟩ := isFree_currentGame s p o hmem.2
        exact initializeGame_StateStep s s' p o secretWord id P Q hP hQ hs

theorem pickOponentForPlayer_StateStep (s s' : Server) (p : Nat) (recv : Option Message)
    (id : String) (hs : pickOponentForPlayer s p recv id = some s') : StateStep s s' := by
  unfold pickOponentForPlayer at hs
  cases recv with
  | none => exact disconnectPlayer_StateStep s s' p hs
  | some msg =>
    simp only at hs
    split at hs
    · exact disconnectPlayer_StateStep s s' p hs
    · split at hs
      · unfold handleGetPlayersRequest at hs
        cases hP : s.playerHeap[p]? with
        | none => simp [hP] at hs
        | some P =>
          simp [hP] at hs
          subst hs
          exact StateStep_of_heap_eq _ _ rfl
      · split at hs
        · split at hs
          · exact handleInitGame_StateStep s s' p _ _ id hs
          · cases hP : s.playerHeap[p]? with
            | none => simp [hP] at hs
            | some P =>
              simp [hP] at hs
              subst hs
              exact StateStep_of_heap_eq _ _ rfl
        · split at hs
          · have : s = s' := Option.some.inj hs
            rw [← this]; exact StateStep_refl s
          · cases hP : s.playerHeap[p]? with
            | none => simp [hP] at hs
            | some P =>
              simp [hP] at hs
              subst hs
              exact StateStep_of_heap_eq _ _ rfl

theorem play_StateStep (s s' : Server) (p : Nat) (recv : Option Message)
    (hs : play s p recv = some s') : StateStep s s' := by
  unfold play at hs
  cases hP : s.playerHeap[p]? with
  | none => simp [hP] at hs
  | some P =>
    simp only [hP, Option.bind_eq_bind, Option.some_bind] at hs
    cases recv with
    | none =>
      simp only [Option.bind_eq_some] at hs
      obtain ⟨s1, hs1, P', _, s2, hs2, g, _, G, _, O, _, hs'⟩ := hs
      have h1 := disconnectPlayer_StateStep s s1 p hs1
      have h2 := terminateGame_StateStep s1 s2 _ hs2
      have : SendMessage s2 O.conn _ GAME_TERMINATED = s' := Option.some.inj hs'
      rw [← this]
      exact StateStep_trans _ _ _ (StateStep_trans _ _ _ h1 h2) (StateStep_of_heap_eq _ _ rfl)
    | some msg =>
      simp only at hs
      split at hs
      · have : s = s' := Option.some.inj hs
        rw [← this]; exact StateStep_refl s
      · simp only [Option.bind_eq_bind, Option.bind_eq_some] at hs
        obtain ⟨g, _, G, _, O, _, hs'⟩ := hs
        have : SendMessage s O.conn msg.Data MESSAGE = s' := Option.some.inj hs'
        rw [← this]
        exact StateStep_of_heap_eq _ _ rfl

theorem guess_StateStep (EqualFold : String → String → Bool) (s s' : Server)
    (p : Nat) (recv : Option Message)
    (hs : guess EqualFold s p recv = some s') : StateStep s s' := by
  unfold guess at hs
  cases hP : s.playerHeap[p]? with
  | none => simp [hP] at hs
  | some P =>
    simp only [hP, Option.bind_eq_bind, Option.some_bind] at hs
    cases recv with
    | none =>
      simp only [Option.bind_eq_some] at hs
      obtain ⟨s1, hs1, P', _, s2, hs2, g, _, G, _, S, _, hs'⟩ := hs
      have h1 := disconnectPlayer_StateStep s s1 p hs1
      have h2 := terminateGame_StateStep s1 s2 _ hs2
      have : SendMessage s2 S.conn _ GAME_TERMINATED = s' := Option.some.inj hs'
      rw [← this]
      exact StateStep_trans _ _ _ (StateStep_trans _ _ _ h1 h2) (StateStep_of_heap_eq _ _ rfl)
    | some msg =>
      simp only at hs
      split at hs
      · have : s = s' := Option.some.inj hs
        rw [← this]; exact StateStep_refl s
      · split at hs
        · simp only [Option.bind_eq_bind, Option.bind_eq_some] at hs
          obtain ⟨g, _, G, _, S, _, O, _, hs'⟩ := hs
          have h2 := terminateGame_StateStep _ s' _ hs'
          exact StateStep_trans _ _ _ (StateStep_of_heap_eq s _ rfl) h2
        · simp only [Option.bind_eq_bind, Option.bind_eq_some] at hs
          obtain ⟨g, _, G, _, hs'⟩ := hs
          split at hs'
          · simp only [Option.bind_eq_bind, Option.bind_eq_some] at hs'
            obtain ⟨O, _, S, _, hs''⟩ := hs'
            have h2 := terminateGame_StateStep _ s' _ hs''
            exact StateStep_trans _ _ _ (StateStep_of_heap_eq s _ rfl) h2
          · simp only [Option.bind_eq_bind, Option.bind_eq_some] at hs'
            obtain ⟨O, _, S, _, hs''⟩ := hs'
            have : SendMessage (SendMessage s O.conn _ MESSAGE) S.conn _ MESSAGE = s' :=
              Option.some.inj hs''
            rw [← this]
            exact StateStep_of_heap_eq _ _ rfl

theorem authenticatePlayer_StateStep (s s' : Server) (p : Nat) (recv : Option Message)
    (id : String) (hs : authenticatePlayer s p recv id = some s') : StateStep s s' := by
  cases hP : s.playerHeap[p]? with
  | none => simp [authenticatePlayer, hP] at hs
  | some P =>
    cases recv with
    | none =>
      simp only [authenticatePlayer, hP, Option.bind_eq_bind, Option.some_bind] at hs
      have h2 := disconnectPlayer_StateStep _ s' p hs
      exact StateStep_trans _ _ _ (StateStep_of_heap_eq s _ rfl) h2
    | some msg =>
      by_cases hpw : msg.Data = s.Password
      · obtain ⟨s'', hs'', hheap, hother, _⟩ :=
          authenticatePlayer_success_spec s p P msg id hP hpw
        rw [hs] at hs''
        have heq : s' = s'' := Option.some.inj hs''
        subst heq
        intro q P' hP'
        by_cases hq : q = p
        · subst hq
          rw [hheap] at hP'
          have : P' = _ := (Option.some.inj hP').symm
          subst this
          exact ⟨P, hP, Or.inr (Or.inl rfl)⟩
        · rw [hother q hq] at hP'
          exact ⟨P', hP', Or.inl rfl⟩
      · simp [authenticatePlayer, hP, hpw] at hs
        subst hs
        exact StateStep_of_heap_eq _ _ rfl

theorem stepMethod_StateStep (EqualFold : String → String → Bool) (pc : Pc) (s s' : Server)
    (p : Nat) (recv : Option Message) (id : String)
    (hs : stepMethod EqualFold pc s p recv id = some s') : StateStep s s' := by
  cases pc with
  | loop => exact absurd hs (by simp [stepMethod])
  | returned => exact absurd hs (by simp [stepMethod])
  | authenticatePlayer => exact authenticatePlayer_StateStep s s' p recv id hs
  | pickOponentForPlayer => exact pickOponentForPlayer_StateStep s s' p recv id hs
  | play => exact play_StateStep s s' p recv hs
  | guess => exact guess_StateStep EqualFold s s' p recv hs

theorem StateStep_no_error (s s' : Server) (h : StateStep s s')
    (hs : ∀ P ∈ s.playerHeap, P.state ≠ PlayerState.Error) :
    ∀ P ∈ s'.playerHeap, P.state ≠ PlayerState.Error := by
  intro P' hP'
  obtain ⟨q, hq⟩ := List.getElem?_of_mem hP'
  obtain ⟨P, hP, hst⟩ := h q P' hq
  have hPs := hs P (List.getElem?_mem hP)
  rcases hst with h1 | h1 | h1 | h1
  · rw [h1]; exact hPs
  · rw [h1]; simp
  · rw [h1]; simp
  · rw [h1]; simp

theorem step_NeverError (EqualFold : String → String → Bool) (sys sys' : System) (e : Event)
    (h : NeverError sys) (hs : step EqualFold sys e = some sys') : NeverError sys' := by
  obtain ⟨h1, h2⟩ := h
  cases e with
  | accept conn =>
    have heq : accept sys conn = sys' := Option.some.inj hs
    subst heq
    refine ⟨?_, ?_⟩
    · intro P hP
      simp only [accept, List.mem_append, List.mem_singleton] at hP
      rcases hP with hP | hP
      · exact h1 P hP
      · subst hP; simp
    · intro hmem
      simp only [accept, List.mem_append, List.mem_singleton] at hmem
      rcases hmem with hmem | hmem
      · exact h2 hmem
      · exact absurd hmem (by simp)
  | dispatch p =>
    simp only [step, dispatch] at hs
    cases hpc : sys.pcs[p]? with
    | none => simp [hpc] at hs
    | some pc =>
      cases hP : sys.server.playerHeap[p]? with
      | none => simp [hpc, hP] at hs
      | some P =>
        simp only [hpc, hP, Option.bind_eq_bind, Option.some_bind] at hs
        have hPs := h1 P (List.getElem?_mem hP)
        split at hs
        · cases hst : P.state with
          | Error => exact absurd hst hPs
          | Connected =>
            simp only [hst] at hs
            have heq := Option.some.inj hs
            subst heq
            refine ⟨h1, fun hmem => ?_⟩
            rcases List.mem_or_eq_of_mem_set hmem with h' | h'
            · exact h2 h'
            · exact absurd h' (by simp)
          | Authenticated =>
            simp only [hst] at hs
            have heq := Option.some.inj hs
            subst heq
            refine ⟨h1, fun hmem => ?_⟩
            rcases List.mem_or_eq_of_mem_set hmem with h' | h'
            · exact h2 h'
            · exact absurd h' (by simp)
          | Playing =>
            simp only [hst] at hs
            have heq := Option.some.inj hs
            subst heq
            refine ⟨h1, fun hmem => ?_⟩
            rcases List.mem_or_eq_of_mem_set hmem with h' | h'
            · exact h2 h'
            · exact absurd h' (by simp)
          | Guessing =>
            simp only [hst] at hs
            have heq := Option.some.inj hs
            subst heq
            refine ⟨h1, fun hmem => ?_⟩
            rcases List.mem_or_eq_of_mem_set hmem with h' | h'
            · exact h2 h'
            · exact absurd h' (by simp)
        · exact absurd hs (by simp)
  | receive p recv id =>
    simp only [step, receive] at hs
    cases hpc : sys.pcs[p]? with
    | none => simp [hpc] at hs
    | some pc =>
      cases hP : sys.server.playerHeap[p]? with
      | none => simp [hpc, hP] at hs
      | some P =>
        simp only [hpc, hP, Option.bind_eq_bind, Option.some_bind] at hs
        split at hs
        · exact absurd hs (by simp)
        · simp only [Option.bind_eq_bind, Option.bind_eq_some, Option.pure_def] at hs
          obtain ⟨s', hstep, hs'⟩ := hs
          have heq := Option.some.inj hs'
          subst heq
          refine ⟨StateStep_no_error _ _
            (stepMethod_StateStep EqualFold pc _ s' p recv id hstep) h1, fun hmem => ?_⟩
          rcases List.mem_or_eq_of_mem_set hmem with h' | h'
          · exact h2 h'
          · exact absurd h' (by simp)

/-- In every reachable state no player object is in state `Error` and no
session goroutine has returned: the code never assigns `Error`. -/
theorem Reachable_NeverError (EqualFold : String → String → Bool) (password : String)
    (sys : System) (h : Reachable EqualFold password sys) : NeverError sys := by
  induction h with
  | init =>
    refine ⟨?_, ?_⟩
    · intro P hP; simp [newSystem, newServer] at hP
    · simp [newSystem]
  | step sys sys' e _ hs ih => exact step_NeverError EqualFold sys sys' e ih hs

/-- C13, the code at the failing input: after a wrong password the player
was sent the rejection notice, is not in the player registry and its
connection is closed, but its state is still Connected, not Error; the
session does not stop: it enters `authenticatePlayer` again, sends the prompt
on the closed connection, fails to receive, and enters `authenticatePlayer`
once more. -/
theorem wrong_password_leaves_Connected :
    ∃ sys sys',
      run asciiEqualFold (newSystem "secret") wrongPasswordTrace = some sys
      ∧ sys.server.sent =
          [{ conn := 10, Data := "Enter secret Password!", Type_ := MESSAGE },
           { conn := 10, Data := "Password is incorrect... you will be disconnected.",
             Type_ := DISCONNECT }]
      ∧ sys.server.Players = []
      ∧ sys.server.closed = [10]
      ∧ sys.server.playerHeap[0]? =
          some { ID := "", conn := 10, state := PlayerState.Connected, currentGame := none }
      ∧ sys.pcs[0]? = some Pc.loop
      ∧ run asciiEqualFold sys afterWrongPasswordTrace = some sys'
      ∧ sys'.server.playerHeap[0]? =
          some { ID := "", conn := 10, state := PlayerState.Connected, currentGame := none }
      ∧ sys'.pcs[0]? = some Pc.authenticatePlayer := by
  refine ⟨_, _, rfl, ?_, ?_, ?_, ?_, ?_, rfl, ?_, ?_⟩ <;> decide

/-- C14, the code at the failing inputs: when the receive fails, the player
is left Connected by `authenticatePlayer`, Authenticated by
`pickOponentForPlayer`, and Authenticated by `play` and by `guess` (through
`terminateGame`), never Error; and in the run `receiveFailureTrace` the
session goes on after each failure: at its end the goroutine is blocked in
`pickOponentForPlayer` again and no connection was closed. -/
theorem receive_failure_never_Error :
    (∃ s', authenticatePlayer (accept (newSystem "secret") 10).server 0 none "00000000" = some s'
        ∧ s'.playerHeap[0]? =
          some { ID := "", conn := 10, state := PlayerState.Connected, currentGame := none })
      ∧ (∃ s', pickOponentForPlayer exampleLobby 0 none "00000000" = some s'
        ∧ s'.playerHeap[0]? =
          some { ID := "0000000a", conn := 10, state := PlayerState.Authenticated,
                 currentGame := none })
      ∧ (∃ s', play exampleGame 0 none = some s'
        ∧ s'.playerHeap[0]? =
          some { ID := "0000000a", conn := 10, state := PlayerState.Authenticated,
                 currentGame := none })
      ∧ (∃ s', guess asciiEqualFold exampleGame 1 none = some s'
        ∧ s'.playerHeap[1]? =
          some { ID := "0000000b", conn := 11, state := PlayerState.Authenticated,
                 currentGame := none })
      ∧ (∃ sys, run asciiEqualFold (newSystem "secret") receiveFailureTrace = some sys
        ∧ sys.server.playerHeap[0]? =
          some { ID := "0000000a", conn := 10, state := PlayerState.Authenticated,
                 currentGame := none }
        ∧ sys.pcs[0]? = some Pc.pickOponentForPlayer
        ∧ sys.server.closed = []) := by
  refine ⟨⟨_, rfl, ?_⟩, ⟨_, rfl, ?_⟩, ⟨_, rfl, ?_⟩, ⟨_, rfl, ?_⟩, ⟨_, rfl, ?_, ?_, ?_⟩⟩ <;>
    decide

/-- C15, the code at the failing input: a disconnect request removes the
player from the player registry and leaves every other entry, but the
player's state stays Authenticated, not Error; in the run
`deregisteredSetterTrace` the session handles the next request of the same
player, an init-game request, and creates a game with it as setter. -/
theorem disconnect_request_leaves_Authenticated :
    (∃ s', pickOponentForPlayer exampleLobby 0
          (some { Type_ := DISCONNECT, Data := "" }) "00000000" = some s'
        ∧ s'.Players = [("0000000b", 1)]
        ∧ s'.playerHeap[0]? =
          some { ID := "0000000a", conn := 10, state := PlayerState.Authenticated,
                 currentGame := none })
      ∧ (∃ sys, run asciiEqualFold (newSystem "secret") deregisteredSetterTrace = some sys
        ∧ sys.server.Players = [("0000000b", 1)]
        ∧ sys.server.gameHeap =
          [{ ID := "0000000c", Player := 0, Opponent := 1, SecretWord := "apple" }]
        ∧ sys.server.playerHeap[0]? =
          some { ID := "0000000a", conn := 10, state := PlayerState.Playing,
                 currentGame := some 0 }) := by
  refine ⟨⟨_, rfl, ?_, ?_⟩, ⟨_, rfl, ?_, ?_, ?_⟩⟩ <;> decide

/-! ### Malformed requests -/

theorem mapGet_filter_none (m : List (String × Nat)) (f : String × Nat → Bool) (k : String)
    (h : ∀ e ∈ m, e.1 = k → f e = false) : mapGet (m.filter f) k = none := by
  unfold mapGet
  have : (m.filter f).find? (fun e => decide (e.1 = k)) = none := by
    rw [List.find?_eq_none]
    intro e he
    rw [List.mem_filter] at he
    intro hk
    have hk' : e.1 = k := by simpa using hk
    rw [h e he.1 hk'] at he
    exact absurd he.2 (by simp)
  rw [this]
  rfl

/-- C16: for a player `P` at the receive of `pickOponentForPlayer` (the step
of an Authenticated player), each of these requests: an init-game request
whose payload does not split into exactly two fields; an init-game request
whose first field is `P`'s own identifier; an init-game request whose first
field is an identifier under which the player registry holds no player that
passes the test of `getFreePlayers`; and a message whose type is none of
disconnect, get-players, init-game and game-started; makes the step return
after exactly one `SendMessage`, of an invalid-typed message on `P`'s own
connection, with both registries, all player objects and all game objects
unchanged. -/
theorem pickOponentForPlayer_malformed (s : Server) (p : Nat) (P : Player) (msg : Message)
    (id : String) (hP : s.playerHeap[p]? = some P)
    (hmal : (msg.Type_ = INIT_GAME ∧ (Fields msg.Data).length ≠ 2)
      ∨ (msg.Type_ = INIT_GAME ∧ ∃ w, Fields msg.Data = [P.ID, w])
      ∨ (msg.Type_ = INIT_GAME ∧ ∃ o w, Fields msg.Data = [o, w]
          ∧ ∀ e ∈ s.Players, e.1 = o → isFree s p e.2 = false)
      ∨ (msg.Type_ ≠ DISCONNECT ∧ msg.Type_ ≠ GET_PLAYERS ∧ msg.Type_ ≠ INIT_GAME
          ∧ msg.Type_ ≠ GAME_STARTED)) :
    ∃ s' text, pickOponentForPlayer s p (some msg) id = some s'
      ∧ s'.sent = s.sent ++ [{ conn := P.conn, Data := text, Type_ := INVALID }]
      ∧ s'.Players = s.Players
      ∧ s'.Games = s.Games
      ∧ s'.playerHeap = s.playerHeap
      ∧ s'.gameHeap = s.gameHeap
      ∧ s'.closed = s.closed := by
  have key : ∀ text, pickOponentForPlayer s p (some msg) id
      = some (SendMessage s P.conn text INVALID) →
      ∃ s' text, pickOponentForPlayer s p (some msg) id = some s'
        ∧ s'.sent = s.sent ++ [{ conn := P.conn, Data := text, Type_ := INVALID }]
        ∧ s'.Players = s.Players ∧ s'.Games = s.Games ∧ s'.playerHeap = s.playerHeap
        ∧ s'.gameHeap = s.gameHeap ∧ s'.closed = s.closed :=
    fun text h => ⟨_, text, h, rfl, rfl, rfl, rfl, rfl, rfl⟩
  rcases hmal with ⟨ht, hlen⟩ | ⟨ht, w, hf⟩ | ⟨ht, o, w, hf, hfree⟩ | ⟨h1, h2, h3, h4⟩
  · apply key "Invalid request"
    match hfl : Fields msg.Data with
    | [] => simp [pickOponentForPlayer, ht, INIT_GAME, DISCONNECT, GET_PLAYERS, hfl, hP]
    | [_] => simp [pickOponentForPlayer, ht, INIT_GAME, DISCONNECT, GET_PLAYERS, hfl, hP]
    | [_, _] => rw [hfl] at hlen; exact absurd rfl hlen
    | _ :: _ :: _ :: _ =>
      simp [pickOponentForPlayer, ht, INIT_GAME, DISCONNECT, GET_PLAYERS, hfl, hP]
  · apply key "You cannot play against yourself"
    simp [pickOponentForPlayer, ht, INIT_GAME, DISCONNECT, GET_PLAYERS, hf, handleInitGame, hP]
  · by_cases ho : o = P.ID
    · apply key "You cannot play against yourself"
      simp [pickOponentForPlayer, ht, INIT_GAME, DISCONNECT, GET_PLAYERS, hf, handleInitGame,
        hP, ho]
    · apply key ("Opponent with Id " ++ o ++ " is is not free or does not exist\n")
      have hnone : mapGet (getFreePlayers s p) o = none :=
        mapGet_filter_none s.Players _ o hfree
      simp [pickOponentForPlayer, ht, INIT_GAME, DISCONNECT, GET_PLAYERS, hf, handleInitGame,
        hP, ho, hnone]
  · apply key "Invalid request"
    simp [pickOponentForPlayer, h1, h2, h3, h4, hP]

theorem pickOponentForPlayer_malformed_witness :
    (∃ s' text, pickOponentForPlayer exampleLobby 0
          (some { Type_ := INIT_GAME, Data := "onlyone" }) "0000000c" = some s'
        ∧ s'.sent = exampleLobby.sent ++ [{ conn := 10, Data := text, Type_ := INVALID }]
        ∧ s'.Players = exampleLobby.Players
        ∧ s'.Games = exampleLobby.Games
        ∧ s'.playerHeap = exampleLobby.playerHeap
        ∧ s'.gameHeap = exampleLobby.gameHeap
        ∧ s'.closed = exampleLobby.closed)
      ∧ (∃ s' text, pickOponentForPlayer exampleLobby 0
          (some { Type_ := INIT_GAME, Data := "0000000a apple" }) "0000000c" = some s'
        ∧ s'.sent = exampleLobby.sent ++ [{ conn := 10, Data := text, Type_ := INVALID }]
        ∧ s'.Players = exampleLobby.Players
        ∧ s'.Games = exampleLobby.Games
        ∧ s'.playerHeap = exampleLobby.playerHeap
        ∧ s'.gameHeap = exampleLobby.gameHeap
        ∧ s'.closed = exampleLobby.closed)
      ∧ (∃ s' text, pickOponentForPlayer exampleLobby 0
          (some { Type_ := INIT_GAME, Data := "ffffffff apple" }) "0000000c" = some s'
        ∧ s'.sent = exampleLobby.sent ++ [{ conn := 10, Data := text, Type_ := INVALID }]
        ∧ s'.Players = exampleLobby.Players
        ∧ s'.Games = exampleLobby.Games
        ∧ s'.playerHeap = exampleLobby.playerHeap
        ∧ s'.gameHeap = exampleLobby.gameHeap
        ∧ s'.closed = exampleLobby.closed)
      ∧ (∃ s' text, pickOponentForPlayer exampleLobby 0
          (some { Type_ := MESSAGE, Data := "hello" }) "0000000c" = some s'
        ∧ s'.sent = exampleLobby.sent ++ [{ conn := 10, Data := text, Type_ := INVALID }]
        ∧ s'.Players = exampleLobby.Players
        ∧ s'.Games = exampleLobby.Games
        ∧ s'.playerHeap = exampleLobby.playerHeap
        ∧ s'.gameHeap = exampleLobby.gameHeap
        ∧ s'.closed = exampleLobby.closed) :=
  ⟨pickOponentForPlayer_malformed exampleLobby 0
      { ID := "0000000a", conn := 10, state := PlayerState.Authenticated, currentGame := none }
      { Type_ := INIT_GAME, Data := "onlyone" } "0000000c" (by rfl)
      (Or.inl ⟨rfl, by decide⟩),
   pickOponentForPlayer_malformed exampleLobby 0
      { ID := "0000000a", conn := 10, state := PlayerState.Authenticated, currentGame := none }
      { Type_ := INIT_GAME, Data := "0000000a apple" } "0000000c" (by rfl)
      (Or.inr (Or.inl ⟨rfl, "apple", by decide⟩)),
   pickOponentForPlayer_malformed exampleLobby 0
      { ID := "0000000a", conn := 10, state := PlayerState.Authenticated, currentGame := none }
      { Type_ := INIT_GAME, Data := "ffffffff apple" } "0000000c" (by rfl)
      (Or.inr (Or.inr (Or.inl ⟨rfl, "ffffffff", "apple", by decide, by decide⟩))),
   pickOponentForPlayer_malformed exampleLobby 0
      { ID := "0000000a", conn := 10, state := PlayerState.Authenticated, currentGame := none }
      { Type_ := MESSAGE, Data := "hello" } "0000000c" (by rfl)
      (Or.inr (Or.inr (Or.inr ⟨by decide, by decide, by decide, by decide⟩)))⟩

/-! ### Listing the free players -/

theorem mem_getFreePlayers (s : Server) (r : Nat) (R : Player)
    (hR : s.playerHeap[r]? = some R) (e : String × Nat) :
    e ∈ getFreePlayers s r ↔
      e ∈ s.Players ∧ ∃ Q, s.playerHeap[e.2]? = some Q ∧ Q.currentGame = none ∧ Q.ID ≠ R.ID := by
  simp only [getFreePlayers, List.mem_filter, isFree, hR]
  constructor
  · rintro ⟨hmem, hfree⟩
    refine ⟨hmem, ?_⟩
    cases hQ : s.playerHeap[e.2]? with
    | none => simp [hQ] at hfree
    | some Q =>
      simp [hQ] at hfree
      exact ⟨Q, rfl, hfree.1, fun h => hfree.2 h.symm⟩
  · rintro ⟨hmem, Q, hQ, hg, hne⟩
    refine ⟨hmem, ?_⟩
    simp [hQ, hg, Ne.symm hne]

theorem freePlayersText_lines (s : Server) (l : List (String × Nat)) (acc : String)
    (hvalid : ∀ e ∈ l, ∃ Q, s.playerHeap[e.2]? = some Q) :
    ∃ lines,
      l.foldl
          (fun acc e =>
            match s.playerHeap[e.2]? with
            | some Q => acc ++ (Q.ID ++ "\n")
            | none => acc) acc
        = acc ++ concatLines lines
      ∧ List.Forall₂
          (fun e line => ∃ Q, s.playerHeap[e.2]? = some Q ∧ line = Q.ID ++ "\n") l lines := by
  induction l generalizing acc with
  | nil => exact ⟨[], by simp [concatLines], List.Forall₂.nil⟩
  | cons e es ih =>
    obtain ⟨Q, hQ⟩ := hvalid e (List.mem_cons_self _ _)
    obtain ⟨lines, hfold, hall⟩ :=
      ih (acc ++ (Q.ID ++ "\n")) (fun x hx => hvalid x (List.mem_cons_of_mem _ hx))
    refine ⟨(Q.ID ++ "\n") :: lines, ?_, List.Forall₂.cons ⟨Q, hQ, rfl⟩ hall⟩
    simp only [List.foldl_cons, hQ]
    rw [hfold]
    simp [concatLines, String.append_assoc]

/-- C17: for every server state and requesting player `R`, an entry (an
identifier and a player) is in `getFreePlayers(R)` exactly when it is an
entry of the player registry, the player has no active game and the player's
identifier differs from `R`'s; and a get-players request makes the step
return after exactly one `SendMessage`, to `R`, of a message whose text is a
fixed first line followed by one line per entry of `getFreePlayers(R)`, that
line being the identifier of the entry's player, with both registries, all
player objects and all game objects unchanged. -/
theorem getFreePlayers_and_reply (s : Server) (r : Nat) (R : Player) (payload id : String)
    (hR : s.playerHeap[r]? = some R) :
    (∀ e, e ∈ getFreePlayers s r ↔
        e ∈ s.Players ∧
          ∃ Q, s.playerHeap[e.2]? = some Q ∧ Q.currentGame = none ∧ Q.ID ≠ R.ID)
      ∧ ∃ s' lines,
          pickOponentForPlayer s r (some { Type_ := GET_PLAYERS, Data := payload }) id = some s'
          ∧ s'.sent = s.sent ++
              [{ conn := R.conn,
                 Data := "You can play against these users:\n" ++ concatLines lines,
                 Type_ := MESSAGE }]
          ∧ List.Forall₂
              (fun e line => ∃ Q, s.playerHeap[e.2]? = some Q ∧ line = Q.ID ++ "\n")
              (getFreePlayers s r) lines
          ∧ s'.Players = s.Players
          ∧ s'.Games = s.Games
          ∧ s'.playerHeap = s.playerHeap
          ∧ s'.gameHeap = s.gameHeap
          ∧ s'.closed = s.closed := by
  refine ⟨mem_getFreePlayers s r R hR, ?_⟩
  obtain ⟨lines, hfold, hall⟩ :=
    freePlayersText_lines s (getFreePlayers s r) "You can play against these users:\n"
      (fun e he => by
        obtain ⟨_, Q, hQ, _⟩ := (mem_getFreePlayers s r R hR e).mp he
        exact ⟨Q, hQ⟩)
  refine ⟨SendMessage s R.conn (freePlayersText s (getFreePlayers s r)) MESSAGE, lines,
    ?_, ?_, hall, rfl, rfl, rfl, rfl, rfl⟩
  · simp [pickOponentForPlayer, GET_PLAYERS, DISCONNECT, handleGetPlayersRequest, hR]
  · simp only [SendMessage_sent, freePlayersText]
    rw [hfold]

theorem getFreePlayers_and_reply_witness :
    (∀ e, e ∈ getFreePlayers exampleLobby 0 ↔
        e ∈ exampleLobby.Players ∧
          ∃ Q, exampleLobby.playerHeap[e.2]? = some Q ∧ Q.currentGame = none
            ∧ Q.ID ≠ "0000000a")
      ∧ ∃ s' lines,
          pickOponentForPlayer exampleLobby 0 (some { Type_ := GET_PLAYERS, Data := "" })
            "0000000c" = some s'
          ∧ s'.sent = exampleLobby.sent ++
              [{ conn := 10,
                 Data := "You can play against these users:\n" ++ concatLines lines,
                 Type_ := MESSAGE }]
          ∧ List.Forall₂
              (fun e line => ∃ Q, exampleLobby.playerHeap[e.2]? = some Q ∧ line = Q.ID ++ "\n")
              (getFreePlayers exampleLobby 0) lines
          ∧ s'.Players = exampleLobby.Players
          ∧ s'.Games = exampleLobby.Games
          ∧ s'.playerHeap = exampleLobby.playerHeap
          ∧ s'.gameHeap = exampleLobby.gameHeap
          ∧ s'.closed = exampleLobby.closed :=
  getFreePlayers_and_reply exampleLobby 0
    { ID := "0000000a", conn := 10, state := PlayerState.Authenticated, currentGame := none }
    "" "0000000c" (by rfl)

/-! ### The game registry and the identifiers -/

/-- C18, the code at the failing inputs. In the state reached by
`staleDispatchTrace` (no identifier is used twice) the game `000000e1` is
stored in the game registry, but neither its setter, player 1, who has no
current game, nor its guesser, player 2, whose current game is another game
object, has it as current game. In the state reached by
`gameIdCollisionTrace` the current game of player 0 is a game object that is
not in the game registry, which is empty. -/
theorem game_registry_invariant_broken :
    (∃ sys, run asciiEqualFold (newSystem "secret") staleDispatchTrace = some sys
        ∧ mapGet sys.server.Games "000000e1" = some 1
        ∧ sys.server.gameHeap[1]? =
            some { ID := "000000e1", Player := 1, Opponent := 2, SecretWord := "pear" }
        ∧ sys.server.playerHeap[1]? =
            some { ID := "0000000b", conn := 11, state := PlayerState.Authenticated,
                   currentGame := none }
        ∧ sys.server.playerHeap[2]? =
            some { ID := "0000000c", conn := 12, state := PlayerState.Playing,
                   currentGame := some 2 })
      ∧ (∃ sys, run asciiEqualFold (newSystem "secret") gameIdCollisionTrace = some sys
        ∧ sys.server.Games = []
        ∧ sys.server.playerHeap[0]? =
            some { ID := "0000000a", conn := 10, state := PlayerState.Playing,
                   currentGame := some 0 }
        ∧ sys.server.gameHeap[0]? =
            some { ID := "000000aa", Player := 0, Opponent := 1, SecretWord := "apple" }) := by
  refine ⟨⟨_, rfl, ?_, ?_, ?_, ?_⟩, ⟨_, rfl, ?_, ?_, ?_⟩⟩ <;> decide

theorem mapDelete_of_fresh (m : List (String × Nat)) (k : String)
    (h : ∀ e ∈ m, e.1 ≠ k) : mapDelete m k = m := by
  unfold mapDelete
  rw [List.filter_eq_self]
  intro e he
  simpa using h e he

/-- C19, as amended: for every server state and every authentication with
the correct password in which the identifier `generateId` returns differs
from every identifier in the player registry, the step returns and
registration adds exactly one entry, the new player under the new
identifier, and leaves every earlier entry as it was. -/
theorem authenticatePlayer_fresh_id (s : Server) (p : Nat) (P : Player) (msg : Message)
    (id : String) (hP : s.playerHeap[p]? = some P) (hpw : msg.Data = s.Password)
    (hfresh : ∀ e ∈ s.Players, e.1 ≠ id) :
    ∃ s', authenticatePlayer s p (some msg) id = some s'
      ∧ s'.Players = s.Players ++ [(id, p)]
      ∧ s'.Players.length = s.Players.length + 1
      ∧ (∀ e ∈ s.Players, e ∈ s'.Players)
      ∧ (∀ k, k ≠ id → mapGet s'.Players k = mapGet s.Players k)
      ∧ mapGet s'.Players id = some p
      ∧ (∀ q, q ≠ p → s'.playerHeap[q]? = s.playerHeap[q]?) := by
  obtain ⟨s', hs', _, hother, hpl, _⟩ := authenticatePlayer_success_spec s p P msg id hP hpw
  have hpl' : s'.Players = s.Players ++ [(id, p)] := by
    rw [hpl, mapSet, mapDelete_of_fresh _ _ hfresh]
  refine ⟨s', hs', hpl', ?_, ?_, ?_, ?_, hother⟩
  · rw [hpl']; simp
  · intro e he; rw [hpl']; exact List.mem_append_left _ he
  · intro k hk
    rw [hpl']
    unfold mapGet
    rw [List.find?_append]
    cases hf : s.Players.find? (fun e => decide (e.1 = k)) with
    | some e => simp
    | none =>
      have : ¬ id = k := fun h => hk h.symm
      simp [this]
  · rw [hpl]; exact mapGet_mapSet_self _ _ _

theorem authenticatePlayer_fresh_id_witness :
    ∃ s', authenticatePlayer exampleLobby 1 (some { Type_ := MESSAGE, Data := "secret" })
          "0000000d" = some s'
      ∧ s'.Players = exampleLobby.Players ++ [("0000000d", 1)]
      ∧ s'.Players.length = exampleLobby.Players.length + 1
      ∧ (∀ e ∈ exampleLobby.Players, e ∈ s'.Players)
      ∧ (∀ k, k ≠ "0000000d" → mapGet s'.Players k = mapGet exampleLobby.Players k)
      ∧ mapGet s'.Players "0000000d" = some 1
      ∧ (∀ q, q ≠ 1 → s'.playerHeap[q]? = exampleLobby.playerHeap[q]?) :=
  authenticatePlayer_fresh_id exampleLobby 1
    { ID := "0000000b", conn := 11, state := PlayerState.Authenticated, currentGame := none }
    { Type_ := MESSAGE, Data := "secret" } "0000000d" (by rfl) (by rfl) (by decide)

/-- C19 fails as stated: in the state reached by `firstRegisteredTrace`
player 0 is registered under `0000000a`; when `generateId` returns
`0000000a` again for the authentication of player 1, the new player is given
the identifier of a registered player, the registry still has one entry, and
player 0 is no longer registered. -/
theorem player_id_collision :
    ∃ sys s',
      run asciiEqualFold (newSystem "secret") firstRegisteredTrace = some sys
      ∧ isId "0000000a" = true
      ∧ sys.server.Players = [("0000000a", 0)]
      ∧ sys.pcs[1]? = some Pc.authenticatePlayer
      ∧ authenticatePlayer sys.server 1 (some { Type_ := MESSAGE, Data := "secret" })
          "0000000a" = some s'
      ∧ s'.Players = [("0000000a", 1)]
      ∧ s'.playerHeap[0]? =
          some { ID := "0000000a", conn := 10, state := PlayerState.Authenticated,
                 currentGame := none }
      ∧ s'.playerHeap[1]? =
          some { ID := "0000000a", conn := 11, state := PlayerState.Authenticated,
                 currentGame := none } := by
  refine ⟨_, _, rfl, ?_, ?_, ?_, rfl, ?_, ?_, ?_⟩ <;> decide

end GameServer

namespace Client

open Transport

/-! ### The client's request parser -/

theorem TrimSuffix_newline (line : String) : TrimSuffix (line ++ "\n") "\n" = line := by
  have hd : ("\n" : String).data = ['\n'] := rfl
  simp [TrimSuffix, String.data_append, hd]

theorem Fields_ne_nil_of_cons (line first : String) (rest : List String)
    (h : GameServer.Fields line = first :: rest) : line ≠ "" := by
  intro hl
  subst hl
  simp [GameServer.Fields, GameServer.fieldsAux] at h

/-- What `parseClientRequest` returns on a line (read without error, ended
by a newline): the classification by first word holds whenever the line is
empty or has a first word; a line that is not empty and has no word makes
the method panic. -/
theorem parseClientRequest_classification (line : String) :
    (line = "" →
        parseClientRequest (line ++ "\n") false
          = some { payload := "", messageType := INVALID, err := false })
      ∧ (∀ first rest, GameServer.Fields line = first :: rest →
          (first = "exit" → parseClientRequest (line ++ "\n") false
            = some { payload := "", messageType := DISCONNECT, err := false })
          ∧ (first = "list_players" → parseClientRequest (line ++ "\n") false
            = some { payload := "", messageType := GET_PLAYERS, err := false })
          ∧ (first = "give_up" → parseClientRequest (line ++ "\n") false
            = some { payload := "", messageType := GIVE_UP, err := false })
          ∧ (first = "start_game" → ∀ a b, rest = [a, b] →
              parseClientRequest (line ++ "\n") false
                = some { payload := a ++ " " ++ b, messageType := INIT_GAME, err := false })
          ∧ (first = "start_game" → rest.length ≠ 2 →
              parseClientRequest (line ++ "\n") false
                = some { payload := "", messageType := INVALID, err := false })
          ∧ (first ≠ "exit" → first ≠ "list_players" → first ≠ "give_up" →
              first ≠ "start_game" →
              parseClientRequest (line ++ "\n") false
                = some { payload := line, messageType := MESSAGE, err := false }))
      ∧ (line ≠ "" → GameServer.Fields line = [] →
          parseClientRequest (line ++ "\n") false = none) := by
  refine ⟨?_, ?_, ?_⟩
  · intro h
    subst h
    have ht : TrimSuffix "\n" "\n" = "" := by decide
    simp [parseClientRequest, ht]
  · intro first rest hf
    have hne := Fields_ne_nil_of_cons line first rest hf
    refine ⟨?_, ?_, ?_, ?_, ?_, ?_⟩
    · intro h1
      simp [parseClientRequest, TrimSuffix_newline, hne, hf, h1, REQ_DISCONNECT]
    · intro h1
      simp [parseClientRequest, TrimSuffix_newline, hne, hf, h1, REQ_DISCONNECT,
        REQ_GET_PLAYERS]
    · intro h1
      simp [parseClientRequest, TrimSuffix_newline, hne, hf, h1, REQ_DISCONNECT,
        REQ_GET_PLAYERS, REQ_INIT_GAME, REQ_GIVE_UP]
    · intro h1 a b hr
      simp [parseClientRequest, TrimSuffix_newline, hne, hf, h1, hr, REQ_DISCONNECT,
        REQ_GET_PLAYERS, REQ_INIT_GAME, validateCommand]
    · intro h1 hr
      subst h1
      have hv : validateCommand ("start_game" :: rest) 3 = false := by
        simp only [validateCommand, List.length_cons]
        simp
        omega
      simp [parseClientRequest, TrimSuffix_newline, hne, hf, hv, REQ_DISCONNECT,
        REQ_GET_PLAYERS, REQ_INIT_GAME]
    · intro h1 h2 h3 h4
      simp [parseClientRequest, TrimSuffix_newline, hne, hf, h1, h2, h3, h4, REQ_DISCONNECT,
        REQ_GET_PLAYERS, REQ_INIT_GAME, REQ_GIVE_UP]
  · intro hne hf
    simp [parseClientRequest, TrimSuffix_newline, hne, hf]

/-- C20, the code at the failing input: on the line made of one space the
trimmed input is not empty, `strings.Fields` returns no field, and
`parseClientRequest` fails at `requestParts[0]` instead of returning a
result; the same happens on a line made of a tab. -/
theorem parseClientRequest_blank_line_fails :
    TrimSuffix " \n" "\n" = " "
      ∧ GameServer.Fields " " = []
      ∧ parseClientRequest " \n" false = none
      ∧ parseClientRequest "\t\n" false = none := by
  refine ⟨?_, ?_, ?_, ?_⟩ <;> decide

end Client
